import Mathlib

/-!
Verification of the g2ngine scene-editor core against its specification.

The Rust source is shallowly embedded: pure control flow and integer /
boolean / string state are translated faithfully, while floating-point
payloads (positions, colors, matrices, spacing, radii) are carried as an
abstract scalar type `F` (with `Zero` / `One` instances where the source
writes the literals `0.0` / `1.0`).  No verified property computes with
these scalars; they are only stored, moved and compared for data flow, so
this abstraction loses nothing that the claims talk about.

The floating-point instance math of the generators (lines 194-209 and
384-413 of particle_system.rs) cannot affect loop control - the early
break in the grid generator depends only on the accumulated length - so
the per-cell instance value is abstracted as a constructor argument
`mk : Nat -> Nat -> I` (grid cell) resp. `mk : Nat -> I` (sphere index).
-/
set_option autoImplicit false

namespace G2

universe u

variable {F : Type u} {I : Type u} {α : Type u}

variable {G S : Type u}

/-- Grid layout parameters, from `GridParams` in particle_system.rs:
rows (usize), spacing (f32), center ([f32; 3]). -/
structure GridParams (F : Type u) where
  rows : Nat
  spacing : F
  center : F × F × F

/-- Sphere layout parameters, from `SphereParams` in particle_system.rs:
count (usize), radius (f32), center ([f32; 3]). -/
structure SphereParams (F : Type u) where
  count : Nat
  radius : F
  center : F × F × F

/-- Inner `for z in 0..rows` loop of `GridParticleSystem::generate_grid_instances`
(particle_system.rs lines 193-214).  `fuel` counts the remaining z
iterations (the current z index is `rows - fuel`); each iteration pushes
one instance and breaks early once `instances.len() >= count`. -/
def gridInnerLoop (mk : Nat → Nat → I) (count rows x : Nat) :
    Nat → List I → List I
  | 0, acc => acc
  | fuel + 1, acc =>
    let acc' := acc.concat (mk x (rows - (fuel + 1)))
    if count ≤ acc'.length then acc'
    else gridInnerLoop mk count rows x fuel acc'

/-- Outer `for x in 0..rows` loop of `generate_grid_instances`
(particle_system.rs lines 192-218), with the same early break after the
inner loop once `instances.len() >= count`. -/
def gridOuterLoop (mk : Nat → Nat → I) (count rows : Nat) :
    Nat → List I → List I
  | 0, acc => acc
  | fuel + 1, acc =>
    let acc' := gridInnerLoop mk count rows (rows - (fuel + 1)) rows acc
    if count ≤ acc'.length then acc'
    else gridOuterLoop mk count rows fuel acc'

/-- Embedded `GridParticleSystem::generate_grid_instances(count, params)`
(particle_system.rs lines 186-221): a doubly nested loop over
`params.rows` pushing instances, early-terminating at `count`. -/
def generate_grid_instances (mk : Nat → Nat → I) (count : Nat)
    (params : GridParams F) : List I :=
  gridOuterLoop mk count params.rows params.rows []

/-- Embedded `SphereParticleSystem::generate_sphere_instances(params)`
(particle_system.rs lines 376-417): `for i in 0..count` pushes exactly
one instance per index, with no early exit. -/
def generate_sphere_instances (mk : Nat → I) (params : SphereParams F) :
    List I :=
  (List.range params.count).map mk

/-! ## Light manager (light.rs) -/
/-- Embedded `MAX_LIGHTS` (light.rs line 8). -/
def MAX_LIGHTS : Nat := 10

/-- Point light, from `Light` in light.rs lines 1-6: homogeneous position
`[f32; 4]` and RGBA color `[f32; 4]`, scalars abstracted as `F`. -/
structure Light (F : Type u) where
  position : F × F × F × F
  color : F × F × F × F
  deriving DecidableEq

/-- Embedded `Light::default()` (light.rs lines 18-25): all components zero. -/
def Light.default [Zero F] : Light F :=
  ⟨(0, 0, 0, 0), (0, 0, 0, 0)⟩

/-- Embedded `LightArrayGpu` (light.rs lines 10-16).  The fixed `[Light; 10]` array
is modelled as a function from slot index; only indices below
`MAX_LIGHTS` are meaningful. -/
structure LightArrayGpu (F : Type u) where
  lights : Nat → Light F
  num_lights : Nat

/-- Embedded `LightManager` (light.rs lines 27-33).  The `[Light; 10]` array is a
function from slot index (the code only ever indexes below
`MAX_LIGHTS`); `active_mask` is the `u32` occupancy bitmask. -/
structure LightManager (F : Type u) where
  lights : Nat → Light F
  active_mask : Nat
  dirty : Bool
  model_path : String
  material_key : String

/-- Embedded `LightManager::new()` (light.rs lines 36-44). -/
def LightManager.new [Zero F] : LightManager F :=
  ⟨fun _ => Light.default, 0, false, "teapot.obj", "teapot/default"⟩

/-- Rust `u32::count_ones` (used at light.rs line 131): the number of
set bits among the 32 bits of the value. -/
def count_ones (n : Nat) : Nat :=
  ((List.range 32).filter (fun i => n.testBit i)).length

/-- The loop body of `add_light` (light.rs lines 71-81): scan slot `i`
and `fuel` further ones; at the first slot with a clear mask bit, store
the homogenised light, set the bit and the dirty flag, and return the
slot index. -/
def addLightLoop [One F] (m : LightManager F) (pos : F × F × F)
    (color : F × F × F × F) : Nat → Nat → Option Nat × LightManager F
  | _, 0 => (none, m)
  | i, fuel + 1 =>
    if Nat.land m.active_mask (1 <<< i) = 0 then
      (some i,
        { m with
          lights := Function.update m.lights i
            ⟨(pos.1, pos.2.1, pos.2.2, 1), color⟩,
          active_mask := m.active_mask ||| (1 <<< i),
          dirty := true })
    else addLightLoop m pos color (i + 1) fuel

/-- Embedded `LightManager::add_light` (light.rs lines 70-83): first-fit scan over
slots `0..MAX_LIGHTS`, returning `None` with the manager untouched when
every slot is occupied. -/
def LightManager.add_light [One F] (m : LightManager F) (pos : F × F × F)
    (color : F × F × F × F) : Option Nat × LightManager F :=
  addLightLoop m pos color 0 MAX_LIGHTS

/-- Rust bitwise complement `!x` on `u32`: XOR with `0xFFFF_FFFF`. -/
def u32Not (x : Nat) : Nat :=
  x ^^^ (2 ^ 32 - 1)

/-- Embedded `LightManager::remove_light` (light.rs lines 85-90): clear the mask
bit and set dirty when the index is in range, otherwise do nothing. -/
def LightManager.remove_light (m : LightManager F) (index : Nat) :
    LightManager F :=
  if index < MAX_LIGHTS then
    { m with
      active_mask := Nat.land m.active_mask (u32Not (1 <<< index)),
      dirty := true }
  else m

/-- Embedded `LightManager::is_active` (light.rs lines 126-128). -/
def LightManager.is_active (m : LightManager F) (index : Nat) : Bool :=
  decide (index < MAX_LIGHTS) &&
    !(decide (Nat.land m.active_mask (1 <<< index) = 0))

/-- Embedded `LightManager::update_light` (light.rs lines 92-98): overwrite the
slot (re-homogenising the position) and set dirty only when active. -/
def LightManager.update_light [One F] (m : LightManager F) (index : Nat)
    (pos : F × F × F) (color : F × F × F × F) : LightManager F :=
  if m.is_active index then
    { m with
      lights := Function.update m.lights index
        ⟨(pos.1, pos.2.1, pos.2.2, 1), color⟩,
      dirty := true }
  else m

/-- Embedded `LightManager::get_light` (light.rs lines 100-106). -/
def LightManager.get_light (m : LightManager F) (index : Nat) :
    Option (Light F) :=
  if m.is_active index then some (m.lights index) else none

/-- Embedded `LightManager::num_lights` (light.rs lines 130-132). -/
def LightManager.num_lights (m : LightManager F) : Nat :=
  count_ones m.active_mask

/-- One iteration of the `sync_to_gpu` loop (light.rs lines 112-117):
copy an active light to the next write index. -/
def syncStep [Zero F] (m : LightManager F)
    (acc : (Nat → Light F) × Nat) (i : Nat) : (Nat → Light F) × Nat :=
  if m.is_active i then
    (Function.update acc.1 acc.2 (m.lights i), acc.2 + 1)
  else acc

/-- Embedded `LightManager::sync_to_gpu` (light.rs lines 108-124): compact the
active lights to the front of a default-initialised array and record the
write count. -/
def LightManager.sync_to_gpu [Zero F] (m : LightManager F) :
    LightArrayGpu F :=
  let r := (List.range MAX_LIGHTS).foldl (syncStep m)
    (fun _ => Light.default, 0)
  ⟨r.1, r.2⟩

/-- The active slot indices in ascending order. -/
def LightManager.activeIdx (m : LightManager F) : List Nat :=
  (List.range MAX_LIGHTS).filter (fun i => m.is_active i)

/-- The three mutating calls of the claimed reachable-state space. -/
inductive LightOp (F : Type u) where
  | add (pos : F × F × F) (color : F × F × F × F)
  | remove (index : Nat)
  | update (index : Nat) (pos : F × F × F) (color : F × F × F × F)

/-- Apply one mutating call to a manager. -/
def applyLightOp [Zero F] [One F] (m : LightManager F) :
    LightOp F → LightManager F
  | .add p c => (m.add_light p c).2
  | .remove i => m.remove_light i
  | .update i p c => m.update_light i p c

/-- A manager reached from `LightManager::new` by a call sequence. -/
def runLightOps [Zero F] [One F] (ops : List (LightOp F)) : LightManager F :=
  ops.foldl applyLightOp LightManager.new

/-! ## Particle systems (particle_system.rs)

Wall-clock instants are modelled as `Nat` millisecond timestamps: the
source compares `last_edit_time.elapsed().as_millis()` against
`DEBOUNCE_MS`, which for a monotone clock read `now` is
`now - last_edit_time`.  A GPU buffer is modelled as an allocation
identity plus its contents, and `wgpu::Device` as the counter of the
next fresh identity, so that "the same buffer object" is expressible. -/
/-- Embedded `DEBOUNCE_MS` (particle_system.rs line 6). -/
def DEBOUNCE_MS : Nat := 20

/-- A GPU buffer: allocation identity plus stored instance contents. -/
structure GpuBuffer (I : Type u) where
  id : Nat
  contents : List I
  deriving DecidableEq

/-- The device, reduced to its allocator: id of the next fresh buffer. -/
structure Device where
  next_id : Nat
  deriving DecidableEq

/-- Embedded `device.create_buffer_init(...)`: allocate a fresh buffer holding
the given contents. -/
def createBufferInit (dev : Device) (contents : List I) :
    GpuBuffer I × Device :=
  (⟨dev.next_id, contents⟩, ⟨dev.next_id + 1⟩)

/-- Embedded `GridParticleSystem` (particle_system.rs lines 121-132), GPU bind
group and uniform buffer omitted (no claim mentions them). -/
structure GridParticleSystem (F I : Type u) where
  name : String
  params : GridParams F
  model_path : String
  material_key : String
  instance_buffer : GpuBuffer I
  num_instances : Nat
  needs_rebuild : Bool
  last_edit_time : Nat

/-- Embedded `GridParticleSystem::new` (particle_system.rs lines 135-184),
restricted to the instance buffer and rebuild state. -/
def GridParticleSystem.new (dev : Device) (mk : Nat → Nat → I)
    (name : String) (params : GridParams F)
    (model_path material_key : String) (now : Nat) :
    GridParticleSystem F I × Device :=
  let count := params.rows * params.rows
  let instances := generate_grid_instances mk count params
  let r := createBufferInit dev instances
  (⟨name, params, model_path, material_key, r.1, instances.length,
    false, now⟩, r.2)

/-- Embedded `GridParticleSystem::mark_dirty` (particle_system.rs lines 288-291). -/
def GridParticleSystem.mark_dirty (s : GridParticleSystem F I)
    (now : Nat) : GridParticleSystem F I :=
  { s with needs_rebuild := true, last_edit_time := now }

/-- Embedded `GridParticleSystem::update_params` (particle_system.rs lines
235-242): assign the new params, then mark dirty only when the row
count changed. -/
def GridParticleSystem.update_params (s : GridParticleSystem F I)
    (params : GridParams F) (now : Nat) : GridParticleSystem F I :=
  let old_rows := s.params.rows
  let s' := { s with params := params }
  if old_rows ≠ s'.params.rows then s'.mark_dirty now else s'

/-- Embedded `GridParticleSystem::needs_rebuild` (particle_system.rs lines
270-272), at monotone clock reading `now`. -/
def GridParticleSystem.needs_rebuild_at (s : GridParticleSystem F I)
    (now : Nat) : Bool :=
  s.needs_rebuild && decide (DEBOUNCE_MS ≤ now - s.last_edit_time)

/-- Embedded `GridParticleSystem::rebuild` (particle_system.rs lines 274-286):
regenerate all instances, store the count, allocate a fresh instance
buffer with the new contents, and clear the flag. -/
def GridParticleSystem.rebuild (s : GridParticleSystem F I) (dev : Device)
    (mk : Nat → Nat → I) : GridParticleSystem F I × Device :=
  let count := s.params.rows * s.params.rows
  let instances := generate_grid_instances mk count s.params
  let r := createBufferInit dev instances
  ({ s with
      num_instances := instances.length,
      instance_buffer := r.1,
      needs_rebuild := false }, r.2)

/-- Embedded `SphereParticleSystem` (particle_system.rs lines 312-323), GPU bind
group and uniform buffer omitted. -/
structure SphereParticleSystem (F I : Type u) where
  name : String
  params : SphereParams F
  model_path : String
  material_key : String
  instance_buffer : GpuBuffer I
  num_instances : Nat
  needs_rebuild : Bool
  last_edit_time : Nat

/-- Embedded `SphereParticleSystem::new` (particle_system.rs lines 326-374). -/
def SphereParticleSystem.new (dev : Device) (mk : Nat → I)
    (name : String) (params : SphereParams F)
    (model_path material_key : String) (now : Nat) :
    SphereParticleSystem F I × Device :=
  let instances := generate_sphere_instances mk params
  let r := createBufferInit dev instances
  (⟨name, params, model_path, material_key, r.1, instances.length,
    false, now⟩, r.2)

/-- Embedded `SphereParticleSystem::mark_dirty` (particle_system.rs lines
483-486). -/
def SphereParticleSystem.mark_dirty (s : SphereParticleSystem F I)
    (now : Nat) : SphereParticleSystem F I :=
  { s with needs_rebuild := true, last_edit_time := now }

/-- Embedded `SphereParticleSystem::update_params` (particle_system.rs lines
431-438): assign the new params, then mark dirty only when the instance
count changed. -/
def SphereParticleSystem.update_params (s : SphereParticleSystem F I)
    (params : SphereParams F) (now : Nat) : SphereParticleSystem F I :=
  let old_count := s.params.count
  let s' := { s with params := params }
  if old_count ≠ s'.params.count then s'.mark_dirty now else s'

/-- Embedded `SphereParticleSystem::needs_rebuild` (particle_system.rs lines
466-468). -/
def SphereParticleSystem.needs_rebuild_at (s : SphereParticleSystem F I)
    (now : Nat) : Bool :=
  s.needs_rebuild && decide (DEBOUNCE_MS ≤ now - s.last_edit_time)

/-- Embedded `SphereParticleSystem::rebuild` (particle_system.rs lines 470-481). -/
def SphereParticleSystem.rebuild (s : SphereParticleSystem F I)
    (dev : Device) (mk : Nat → I) : SphereParticleSystem F I × Device :=
  let instances := generate_sphere_instances mk s.params
  let r := createBufferInit dev instances
  ({ s with
      num_instances := instances.length,
      instance_buffer := r.1,
      needs_rebuild := false }, r.2)

/-! ## Association-list model of std::collections::HashMap<String, V>

Only insert / remove / get / contains_key / len are used by the code
under scrutiny.  Insert binds the key at the front after erasing any
previous binding (last-writer-wins, as for HashMap); iteration order is
irrelevant to every claim. -/
/-- HashMap::insert - bind `k` to `v`, replacing any previous binding. -/
def mapInsert (k : String) (v : α) (m : List (String × α)) :
    List (String × α) :=
  (k, v) :: m.filter (fun p => decide (p.1 ≠ k))

/-- HashMap::remove - drop the binding of `k` if present. -/
def mapRemove (k : String) (m : List (String × α)) : List (String × α) :=
  m.filter (fun p => decide (p.1 ≠ k))

/-- HashMap::get. -/
def mapLookup (k : String) (m : List (String × α)) : Option α :=
  (m.find? (fun p => decide (p.1 = k))).map Prod.snd

/-- HashMap::contains_key. -/
def mapContains (k : String) (m : List (String × α)) : Bool :=
  m.any (fun p => decide (p.1 = k))

/-- The keys bound by the list are pairwise distinct (true of every map
built from the empty one by the operations above). -/
def keysNodup (m : List (String × α)) : Prop :=
  (m.map Prod.fst).Nodup

/-! ## Particle system manager (particle_system.rs lines 493-580) -/
/-- Embedded `ParticleSystemKind` (particle_system.rs lines 493-497). -/
inductive ParticleSystemKind where
  | Grid
  | Sphere
  deriving DecidableEq

/-- Embedded `ParticleSystemManager` (particle_system.rs lines 499-503): the
stored system values are opaque here (`G` / `S`), since the claim is
about the three maps. -/
structure ParticleSystemManager (G S : Type u) where
  grids : List (String × G)
  spheres : List (String × S)
  name_to_kind : List (String × ParticleSystemKind)

/-- Embedded `ParticleSystemManager::new` (particle_system.rs lines 506-512). -/
def ParticleSystemManager.new : ParticleSystemManager G S :=
  ⟨[], [], []⟩

/-- Embedded `ParticleSystemManager::add_grid` (particle_system.rs lines
514-518): record the kind and insert into the grids map.  The spheres
map is not touched, even when the name was registered as a sphere. -/
def ParticleSystemManager.add_grid (m : ParticleSystemManager G S)
    (name : String) (system : G) : ParticleSystemManager G S :=
  { m with
    name_to_kind := mapInsert name ParticleSystemKind.Grid m.name_to_kind,
    grids := mapInsert name system m.grids }

/-- Embedded `ParticleSystemManager::add_sphere` (particle_system.rs lines
520-524). -/
def ParticleSystemManager.add_sphere (m : ParticleSystemManager G S)
    (name : String) (system : S) : ParticleSystemManager G S :=
  { m with
    name_to_kind := mapInsert name ParticleSystemKind.Sphere m.name_to_kind,
    spheres := mapInsert name system m.spheres }

/-- Embedded `ParticleSystemManager::remove` (particle_system.rs lines 526-535):
remove from name_to_kind; when a kind was registered, remove from the
matching map and report whether an entry was deleted there. -/
def ParticleSystemManager.remove (m : ParticleSystemManager G S)
    (name : String) : Bool × ParticleSystemManager G S :=
  match mapLookup name m.name_to_kind with
  | some kind =>
    let m' := { m with name_to_kind := mapRemove name m.name_to_kind }
    match kind with
    | ParticleSystemKind.Grid =>
      (mapContains name m'.grids,
        { m' with grids := mapRemove name m'.grids })
    | ParticleSystemKind.Sphere =>
      (mapContains name m'.spheres,
        { m' with spheres := mapRemove name m'.spheres })
  | none => (false, m)

/-- Embedded `ParticleSystemManager::count` (particle_system.rs lines 577-579). -/
def ParticleSystemManager.count (m : ParticleSystemManager G S) : Nat :=
  m.grids.length + m.spheres.length

/-- One call on the manager. -/
inductive PSOp (G S : Type u) where
  | addGrid (name : String) (system : G)
  | addSphere (name : String) (system : S)
  | remove (name : String)

/-- Apply one call. -/
def applyPSOp (m : ParticleSystemManager G S) :
    PSOp G S → ParticleSystemManager G S
  | .addGrid n g => m.add_grid n g
  | .addSphere n s => m.add_sphere n s
  | .remove n => (m.remove n).2

/-- A call is cross-kind-safe when it does not re-register a name under
the other kind. -/
def legalOp (m : ParticleSystemManager G S) : PSOp G S → Bool
  | .addGrid n _ =>
    !(decide (mapLookup n m.name_to_kind = some ParticleSystemKind.Sphere))
  | .addSphere n _ =>
    !(decide (mapLookup n m.name_to_kind = some ParticleSystemKind.Grid))
  | .remove _ => true

/-- Every call of the sequence is cross-kind-safe in the state where it
runs. -/
def legalOps (m : ParticleSystemManager G S) : List (PSOp G S) → Bool
  | [] => true
  | op :: t => legalOp m op && legalOps (applyPSOp m op) t

/-- A manager reached from `ParticleSystemManager::new`. -/
def runPSOps (ops : List (PSOp G S)) : ParticleSystemManager G S :=
  ops.foldl applyPSOp ParticleSystemManager.new

/-- Consistency invariant of the manager: distinct keys everywhere,
each registered name lives in exactly the map recorded in name_to_kind,
unregistered names live in neither, and count() equals the number of
registered names. -/
structure PsInv (m : ParticleSystemManager G S) : Prop where
  nodupG : keysNodup m.grids
  nodupS : keysNodup m.spheres
  nodupK : keysNodup m.name_to_kind
  gridMem : ∀ n, mapLookup n m.name_to_kind = some ParticleSystemKind.Grid →
    mapContains n m.grids = true ∧ mapContains n m.spheres = false
  sphereMem : ∀ n,
    mapLookup n m.name_to_kind = some ParticleSystemKind.Sphere →
    mapContains n m.spheres = true ∧ mapContains n m.grids = false
  noneMem : ∀ n, mapLookup n m.name_to_kind = none →
    mapContains n m.grids = false ∧ mapContains n m.spheres = false
  countEq : m.count = m.name_to_kind.length

/-! ## Material registry (state.rs create_material, lines 1214-1291) -/
/-- Modelled from the spec: `MaterialSource`, the provenance tag
declared in model.rs, which is absent from this source snapshot (only
its uses in state.rs remain): System, Model(name) or Custom. -/
inductive MaterialSource where
  | System
  | Model (name : String)
  | Custom
  deriving DecidableEq

/-- Modelled from the spec: `MaterialDesc` from the absent model.rs -
name, texture path, tint color and provenance.  The GPU-resident parts
of `GpuMaterial` (texture handle, uniform buffer, bind group) are
omitted; no claim mentions them. -/
structure MaterialDesc (F : Type u) where
  name : String
  texture_path : String
  color : F × F × F × F
  source : MaterialSource

/-- Embedded `State::create_material` (state.rs lines 1214-1291): derive the key
"custom/{name}", reject an existing key, reject a texture path missing
from the texture registry, otherwise insert the new Custom material
under the key and return it.  The registry is returned alongside the
result so that the no-mutation-on-error behaviour is explicit. -/
def create_material (materials : List (String × MaterialDesc F))
    (textures : List String) (name texture_path : String)
    (color : F × F × F × F) :
    Except String String × List (String × MaterialDesc F) :=
  let material_key := "custom/" ++ name
  if mapContains material_key materials then
    (Except.error ("Material already exists: " ++ material_key), materials)
  else if textures.contains texture_path then
    (Except.ok material_key,
      mapInsert material_key
        ⟨name, texture_path, color, MaterialSource.Custom⟩ materials)
  else
    (Except.error ("Texture not found in registry: " ++ texture_path),
      materials)

/-! ## World persistence (state.rs export_world / load_world, world.rs)

The camera module and the unified `ParticleSystem` type the persisted
variant of state.rs drives are not in this source snapshot, so those
two pieces are modelled from the spec; export_world and load_world
themselves follow the state.rs text (lines 1018-1152).  Scalar casts
(f32 <-> f64, degree <-> radian) performed by the missing camera module
and the color conversion are modelled as the identity, which is their
real-number meaning. -/
/-- Modelled from the spec: `GeneratorType` - the closed tagged union of
generator parameter sets (Grid or Sphere) owned by the unified particle
system of the persisted variant. -/
inductive GeneratorType (F : Type u) where
  | Grid (params : GridParams F)
  | Sphere (params : SphereParams F)

/-- Modelled from the spec: the persisted fields of the unified
`ParticleSystem` - model reference (path), material reference (key) and
generator params; the GPU buffer and debounce state are transient. -/
structure PSystem (F : Type u) where
  model_path : String
  material_key : String
  generator : GeneratorType F

/-- Modelled from the spec: camera pose (position, yaw, pitch) held by
the absent camera module; the exported degree values round-trip through
`Camera::new(position, Deg(yaw), Deg(pitch))`. -/
structure Camera (F : Type u) where
  position : F × F × F
  yaw_deg : F
  pitch_deg : F

/-- Modelled from the spec: projection parameters of the absent camera
module (fovy, znear, zfar), with fovy in degrees as exported. -/
structure Projection (F : Type u) where
  fovy_deg : F
  znear : F
  zfar : F

/-- The engine state touched by export_world / load_world: camera pose,
projection, light manager, particle systems keyed by name, clear color,
model registry keys, and the pending-model-load set.  GPU handles and
in-flight bookkeeping are outside the persisted state. -/
structure EngineState (F : Type u) where
  camera : Camera F
  projection : Projection F
  light_manager : LightManager F
  systems : List (String × PSystem F)
  clear_color : F × F × F × F
  models : List String
  pending_model_loads : List String

/-- Embedded `CameraData` (world.rs): position plus yaw/pitch/fovy in degrees,
znear, zfar. -/
structure CameraData (F : Type u) where
  position : F × F × F
  yaw_deg : F
  pitch_deg : F
  fovy_deg : F
  znear : F
  zfar : F

/-- Embedded `LightParams` as used by state.rs: position, color, model path and
material key. -/
structure LightParams (F : Type u) where
  position : F × F × F
  color : F × F × F × F
  model : String
  material_key : String

/-- Embedded `ParticleSystemData` as used by state.rs: name, model path,
material key and generator params. -/
structure ParticleSystemData (F : Type u) where
  name : String
  model : String
  material_key : String
  generator : GeneratorType F

/-- Embedded `WorldData` (world.rs): the persisted snapshot. -/
structure WorldData (F : Type u) where
  background_color : F × F × F × F
  camera : CameraData F
  lights : List (LightParams F)
  particle_systems : List (ParticleSystemData F)

/-- The first three components of a stored homogeneous light position
(`light.position[0..3]`, state.rs line 1038). -/
def lightPos3 (l : Light F) : F × F × F :=
  (l.position.1, l.position.2.1, l.position.2.2.1)

/-- The export loop over light slots (state.rs lines 1034-1044): for
each slot in ascending order, push the active light with the shared
model path and material key. -/
def exportLights (m : LightManager F) : List (LightParams F) :=
  (List.range MAX_LIGHTS).foldl
    (fun acc i =>
      match m.get_light i with
      | some l =>
        acc ++ [⟨lightPos3 l, l.color, m.model_path, m.material_key⟩]
      | none => acc)
    []

/-- Embedded `State::export_world` (state.rs lines 1018-1071). -/
def EngineState.export_world (s : EngineState F) : WorldData F :=
  { background_color := s.clear_color,
    camera :=
      ⟨s.camera.position, s.camera.yaw_deg, s.camera.pitch_deg,
        s.projection.fovy_deg, s.projection.znear, s.projection.zfar⟩,
    lights := exportLights s.light_manager,
    particle_systems := s.systems.map
      (fun p => ⟨p.1, p.2.model_path, p.2.material_key, p.2.generator⟩) }

/-- The model paths referenced by a snapshot (state.rs lines
1076-1082). -/
def requiredModels (data : WorldData F) : List String :=
  data.lights.map (fun l => l.model) ++
    data.particle_systems.map (fun p => p.model)

/-- HashSet::insert on a list kept duplicate-free. -/
def setInsert (l : List String) (x : String) : List String :=
  if l.contains x then l else l ++ [x]

/-- The pending-load set after a load (state.rs lines 1084-1088): every
referenced model path not in the model registry is enqueued. -/
def pendingAfterLoad (models pending : List String)
    (required : List String) : List String :=
  required.foldl
    (fun acc p => if models.contains p then acc else setInsert acc p)
    pending

/-- The light-manager part of a load (state.rs lines 1114-1130): start
from a fresh manager, take the shared model path and material key from
the first light if any, add every light in order, and clear the dirty
flag after the GPU sync. -/
def loadLights [Zero F] [One F] (lights : List (LightParams F)) :
    LightManager F :=
  let lm0 : LightManager F := LightManager.new
  let lm1 := match lights with
    | [] => lm0
    | first :: _ =>
      { lm0 with
        model_path := first.model, material_key := first.material_key }
  let lm2 := lights.foldl
    (fun m ld => (m.add_light ld.position ld.color).2) lm1
  { lm2 with dirty := false }

/-- The particle-system part of a load (state.rs lines 1132-1143):
a fresh manager filled by HashMap-insert per snapshot entry. -/
def loadSystems (pss : List (ParticleSystemData F)) :
    List (String × PSystem F) :=
  pss.foldl
    (fun acc ps => mapInsert ps.name ⟨ps.model, ps.material_key,
      ps.generator⟩ acc)
    []

/-- Embedded `State::load_world` (state.rs lines 1074-1152). -/
def EngineState.load_world [Zero F] [One F] (s : EngineState F)
    (data : WorldData F) : EngineState F :=
  { camera :=
      ⟨data.camera.position, data.camera.yaw_deg, data.camera.pitch_deg⟩,
    projection :=
      ⟨data.camera.fovy_deg, data.camera.znear, data.camera.zfar⟩,
    light_manager := loadLights data.lights,
    systems := loadSystems data.particle_systems,
    clear_color := data.background_color,
    models := s.models,
    pending_model_loads :=
      pendingAfterLoad s.models s.pending_model_loads
        (requiredModels data) }

/-- The observable light content: for each active slot in ascending
order, the 3-vector position and the color. -/
def activeLightsData (m : LightManager F) :
    List ((F × F × F) × (F × F × F × F)) :=
  m.activeIdx.map (fun i => (lightPos3 (m.lights i), (m.lights i).color))

/-- The homogenised light record stored by add_light for a snapshot
entry. -/
def homogLight [One F] (ld : LightParams F) : Light F :=
  ⟨(ld.position.1, ld.position.2.1, ld.position.2.2, 1), ld.color⟩

/-- A small concrete engine state: one light, one grid system, one
cached model. -/
def exampleEngineState : EngineState Nat :=
  { camera := ⟨(0, 0, 0), 1, 2⟩,
    projection := ⟨3, 4, 5⟩,
    light_manager := (LightManager.new.add_light (1, 2, 3) (4, 5, 6, 7)).2,
    systems := [("main", ⟨"cube.obj", "default",
      GeneratorType.Grid ⟨2, 1, (0, 0, 0)⟩⟩)],
    clear_color := (9, 9, 9, 9),
    models := ["teapot.obj"],
    pending_model_loads := [] }

theorem gridInnerLoop_length (mk : Nat → Nat → I) (count rows x : Nat) :
    ∀ (fuel : Nat) (acc : List I), acc.length + fuel ≤ count →
      (gridInnerLoop mk count rows x fuel acc).length = acc.length + fuel := by
  intro fuel
  induction fuel with
  | zero => intro acc _; simp [gridInnerLoop]
  | succ n ih =>
    intro acc h
    rw [gridInnerLoop]
    by_cases hc : count ≤ (acc.concat (mk x (rows - (n + 1)))).length
    · simp only [List.length_concat] at hc
      have h1 : acc.length + 1 + n ≤ count := by omega
      have : n = 0 := by omega
      subst this
      simp [hc, List.length_concat]
    · simp only [hc, if_false]
      have := ih (acc.concat (mk x (rows - (n + 1))))
        (by simp [List.length_concat]; omega)
      simp [List.length_concat] at this ⊢
      omega

theorem gridOuterLoop_length (mk : Nat → Nat → I) (count rows : Nat) :
    ∀ (fuel : Nat) (acc : List I), acc.length + fuel * rows ≤ count →
      (gridOuterLoop mk count rows fuel acc).length =
        acc.length + fuel * rows := by
  intro fuel
  induction fuel with
  | zero => intro acc _; simp [gridOuterLoop]
  | succ n ih =>
    intro acc h
    have hmul : (n + 1) * rows = rows + n * rows := by ring
    rw [hmul] at h ⊢
    have hrows : acc.length + rows ≤ count := by omega
    have hinner := gridInnerLoop_length mk count rows (rows - (n + 1)) rows acc hrows
    rw [gridOuterLoop]
    simp only [hinner]
    by_cases hc : count ≤ acc.length + rows
    · rw [if_pos hc, hinner]
      omega
    · rw [if_neg hc]
      have hrec := ih (gridInnerLoop mk count rows (rows - (n + 1)) rows acc)
        (by rw [hinner]; omega)
      rw [hrec, hinner]
      omega

/-- C1.  Generator cardinality: for every GridParams with rows >= 1,
generate_grid_instances(rows*rows, params) returns a vector of length
exactly rows*rows; and for every SphereParams with count >= 1,
generate_sphere_instances(params) returns a vector of length exactly
count. -/
theorem c1_generator_cardinality {F I : Type u} (mkG : Nat → Nat → I)
    (mkS : Nat → I) :
    (∀ params : GridParams F, 1 ≤ params.rows →
      (generate_grid_instances mkG (params.rows * params.rows) params).length =
        params.rows * params.rows) ∧
    (∀ params : SphereParams F, 1 ≤ params.count →
      (generate_sphere_instances mkS params).length = params.count) := by
  constructor
  · intro params _
    unfold generate_grid_instances
    have := gridOuterLoop_length mkG (params.rows * params.rows) params.rows
      params.rows [] (by simp)
    simpa using this
  · intro params _
    simp [generate_sphere_instances]

/-- Witness for C1 at a concrete grid (rows = 3) and sphere (count = 5). -/
theorem c1_generator_cardinality_witness :
    (generate_grid_instances (F := Nat) (fun x z => (x, z)) 9
      ⟨3, 0, (0, 0, 0)⟩).length = 9 ∧
    (generate_sphere_instances (F := Nat) (fun i => (i, i)) ⟨5, 0, (0, 0, 0)⟩).length = 5 :=
  ⟨(c1_generator_cardinality (fun x z => (x, z)) (fun i => (i, i))).1
      ⟨3, 0, (0, 0, 0)⟩ (by decide),
   (c1_generator_cardinality (fun x z => (x, z)) (fun i => (i, i))).2
      ⟨5, 0, (0, 0, 0)⟩ (by decide)⟩

/-! Helper lemmas about the bitmask. -/
theorem land_one_shiftLeft_eq_zero (n i : Nat) :
    Nat.land n (1 <<< i) = 0 ↔ n.testBit i = false := by
  have h : n &&& 2 ^ i = (n.testBit i).toNat * 2 ^ i := Nat.and_two_pow n i
  have hland : Nat.land n (1 <<< i) = n &&& 2 ^ i := by
    rw [Nat.one_shiftLeft]
    rfl
  rw [hland, h]
  cases hb : n.testBit i
  · simp
  · simp

theorem count_ones_eq_filter (k n : Nat) (hk : k ≤ 32) (h : n < 2 ^ k) :
    count_ones n = ((List.range k).filter (fun i => n.testBit i)).length := by
  unfold count_ones
  obtain ⟨d, hd⟩ : ∃ d, 32 = k + d := ⟨32 - k, by omega⟩
  rw [hd, List.range_add, List.filter_append, List.length_append]
  have hnil : ((List.range d).map (k + ·)).filter (fun i => n.testBit i) = [] := by
    apply List.filter_eq_nil_iff.mpr
    intro a ha
    simp only [List.mem_map, List.mem_range] at ha
    obtain ⟨b, _, rfl⟩ := ha
    have hlt : n < 2 ^ (k + b) :=
      lt_of_lt_of_le h (Nat.pow_le_pow_right (by decide) (by omega))
    simp [Nat.testBit_lt_two_pow hlt]
  rw [hnil]
  simp

theorem activeIdx_eq_testBit_filter (m : LightManager F) :
    m.activeIdx =
      (List.range MAX_LIGHTS).filter (fun i => m.active_mask.testBit i) := by
  apply List.filter_congr
  intro i hi
  rw [List.mem_range] at hi
  unfold LightManager.is_active
  cases htb : m.active_mask.testBit i
  · have := (land_one_shiftLeft_eq_zero m.active_mask i).mpr htb
    simp [this]
  · have hne : ¬ Nat.land m.active_mask (1 <<< i) = 0 := by
      intro hz
      rw [(land_one_shiftLeft_eq_zero m.active_mask i).mp hz] at htb
      cases htb
    simp [hne, hi]

theorem num_lights_eq_activeIdx_length (m : LightManager F)
    (h : m.active_mask < 2 ^ MAX_LIGHTS) :
    m.num_lights = m.activeIdx.length := by
  rw [LightManager.num_lights, activeIdx_eq_testBit_filter,
    count_ones_eq_filter MAX_LIGHTS m.active_mask (by decide) h]

theorem syncFold_spec [Zero F] (m : LightManager F) :
    ∀ (l : List Nat) (g : Nat → Light F) (w : Nat),
      ((l.foldl (syncStep m) (g, w)).2 =
        w + (l.filter (fun i => m.is_active i)).length) ∧
      (∀ j, j < w ∨ w + (l.filter (fun i => m.is_active i)).length ≤ j →
        (l.foldl (syncStep m) (g, w)).1 j = g j) ∧
      (∀ j, j < (l.filter (fun i => m.is_active i)).length →
        (l.foldl (syncStep m) (g, w)).1 (w + j) =
          m.lights ((l.filter (fun i => m.is_active i)).getD j 0)) := by
  intro l
  induction l with
  | nil =>
    intro g w
    refine ⟨by simp, fun j _ => by simp, fun j hj => by simp at hj⟩
  | cons i t ih =>
    intro g w
    by_cases ha : m.is_active i
    · have hstep : syncStep m (g, w) i =
          (Function.update g w (m.lights i), w + 1) := by
        simp [syncStep, ha]
      have hfil : (i :: t).filter (fun i => m.is_active i) =
          i :: t.filter (fun i => m.is_active i) := by
        simp [List.filter_cons, ha]
      rw [List.foldl_cons, hstep, hfil]
      obtain ⟨ih1, ih2, ih3⟩ := ih (Function.update g w (m.lights i)) (w + 1)
      refine ⟨by rw [ih1]; simp; omega, ?_, ?_⟩
      · intro j hj
        have hj' : j < w + 1 ∨
            (w + 1) + (t.filter (fun i => m.is_active i)).length ≤ j := by
          rcases hj with h1 | h1
          · exact Or.inl (by omega)
          · right
            simp only [List.length_cons] at h1
            omega
        rw [ih2 j hj']
        have hne : j ≠ w := by
          rcases hj with h1 | h1
          · omega
          · simp only [List.length_cons] at h1
            omega
        exact Function.update_noteq hne _ _
      · intro j hj
        cases j with
        | zero =>
          have hw := ih2 w (Or.inl (by omega))
          rw [Function.update_same] at hw
          simpa using hw
        | succ j' =>
          simp only [List.length_cons] at hj
          have h3 := ih3 j' (by omega)
          have harr : w + (j' + 1) = w + 1 + j' := by omega
          calc (List.foldl (syncStep m)
                (Function.update g w (m.lights i), w + 1) t).1 (w + (j' + 1)) =
              (List.foldl (syncStep m)
                (Function.update g w (m.lights i), w + 1) t).1 (w + 1 + j') := by
                rw [harr]
            _ = m.lights ((t.filter (fun i => m.is_active i)).getD j' 0) := h3
            _ = m.lights ((i :: t.filter
                (fun i => m.is_active i)).getD (j' + 1) 0) := by
                rw [List.getD_cons_succ]
    · have hstep : syncStep m (g, w) i = (g, w) := by
        simp [syncStep, ha]
      have hfil : (i :: t).filter (fun i => m.is_active i) =
          t.filter (fun i => m.is_active i) := by
        simp [List.filter_cons, ha]
      rw [List.foldl_cons, hstep, hfil]
      exact ih g w

theorem sync_to_gpu_spec [Zero F] (m : LightManager F) :
    m.sync_to_gpu.num_lights = m.activeIdx.length ∧
    (∀ j, j < m.activeIdx.length →
      m.sync_to_gpu.lights j = m.lights (m.activeIdx.getD j 0)) ∧
    (∀ j, m.activeIdx.length ≤ j →
      m.sync_to_gpu.lights j = Light.default) := by
  obtain ⟨h1, h2, h3⟩ := syncFold_spec m (List.range MAX_LIGHTS)
    (fun _ => Light.default) 0
  refine ⟨?_, ?_, ?_⟩
  · show ((List.range MAX_LIGHTS).foldl (syncStep m)
      (fun _ => Light.default, 0)).2 = _
    rw [h1]
    simp [LightManager.activeIdx]
  · intro j hj
    show ((List.range MAX_LIGHTS).foldl (syncStep m)
      (fun _ => Light.default, 0)).1 j = _
    have := h3 j (by simpa [LightManager.activeIdx] using hj)
    simpa [LightManager.activeIdx] using this
  · intro j hj
    show ((List.range MAX_LIGHTS).foldl (syncStep m)
      (fun _ => Light.default, 0)).1 j = _
    exact h2 j (Or.inr (by simpa [LightManager.activeIdx] using hj))

/-! First-fit characterisation of the add_light scan. -/
theorem addLightLoop_found [One F] (m : LightManager F) (pos : F × F × F)
    (color : F × F × F × F) :
    ∀ (fuel start i : Nat), start ≤ i → i < start + fuel →
      Nat.land m.active_mask (1 <<< i) = 0 →
      (∀ j, start ≤ j → j < i → ¬ Nat.land m.active_mask (1 <<< j) = 0) →
      addLightLoop m pos color start fuel =
        (some i,
          { m with
            lights := Function.update m.lights i
              ⟨(pos.1, pos.2.1, pos.2.2, 1), color⟩,
            active_mask := m.active_mask ||| (1 <<< i),
            dirty := true }) := by
  intro fuel
  induction fuel with
  | zero => intro start i h1 h2 _ _; omega
  | succ n ihf =>
    intro start i h1 h2 hfree hmin
    rw [addLightLoop]
    by_cases hs : Nat.land m.active_mask (1 <<< start) = 0
    · have : i = start := by
        by_contra hne
        exact hmin start (le_refl start) (by omega) hs
      subst this
      rw [if_pos hs]
    · rw [if_neg hs]
      have hi : start ≠ i := by
        intro he
        exact hs (he ▸ hfree)
      exact ihf (start + 1) i (by omega) (by omega) hfree
        (fun j hj1 hj2 => hmin j (by omega) hj2)

theorem addLightLoop_none [One F] (m : LightManager F) (pos : F × F × F)
    (color : F × F × F × F) :
    ∀ (fuel start : Nat),
      (∀ j, start ≤ j → j < start + fuel →
        ¬ Nat.land m.active_mask (1 <<< j) = 0) →
      addLightLoop m pos color start fuel = (none, m) := by
  intro fuel
  induction fuel with
  | zero => intro start _; rfl
  | succ n ihf =>
    intro start hocc
    rw [addLightLoop]
    rw [if_neg (hocc start (le_refl start) (by omega))]
    exact ihf (start + 1) (fun j h1 h2 => hocc j (by omega) (by omega))

/-! Mask bound invariant over operation sequences. -/
theorem addLightLoop_mask [One F] (m : LightManager F) (pos : F × F × F)
    (color : F × F × F × F) :
    ∀ (fuel start : Nat), start + fuel ≤ MAX_LIGHTS →
      m.active_mask < 2 ^ MAX_LIGHTS →
      ((addLightLoop m pos color start fuel).2).active_mask <
        2 ^ MAX_LIGHTS := by
  intro fuel
  induction fuel with
  | zero => intro start _ h; exact h
  | succ n ihf =>
    intro start hle h
    rw [addLightLoop]
    by_cases hb : Nat.land m.active_mask (1 <<< start) = 0
    · rw [if_pos hb]
      show m.active_mask ||| (1 <<< start) < 2 ^ MAX_LIGHTS
      have h2 : (1 <<< start) < 2 ^ MAX_LIGHTS := by
        rw [Nat.one_shiftLeft]
        exact Nat.pow_lt_pow_right (by decide) (by omega)
      exact Nat.or_lt_two_pow h h2
    · rw [if_neg hb]
      exact ihf (start + 1) (by omega) h

theorem applyLightOp_mask [Zero F] [One F] (m : LightManager F)
    (op : LightOp F) (h : m.active_mask < 2 ^ MAX_LIGHTS) :
    (applyLightOp m op).active_mask < 2 ^ MAX_LIGHTS := by
  cases op with
  | add p c => exact addLightLoop_mask m p c MAX_LIGHTS 0 (by omega) h
  | remove i =>
    show (m.remove_light i).active_mask < 2 ^ MAX_LIGHTS
    unfold LightManager.remove_light
    by_cases hlt : i < MAX_LIGHTS
    · rw [if_pos hlt]
      calc Nat.land m.active_mask (u32Not (1 <<< i)) ≤ m.active_mask :=
            Nat.and_le_left
        _ < 2 ^ MAX_LIGHTS := h
    · rw [if_neg hlt]
      exact h
  | update i p c =>
    show (m.update_light i p c).active_mask < 2 ^ MAX_LIGHTS
    unfold LightManager.update_light
    by_cases ha : m.is_active i
    · rw [if_pos ha]
      exact h
    · rw [if_neg ha]
      exact h

theorem foldl_lightOps_mask [Zero F] [One F] :
    ∀ (ops : List (LightOp F)) (m : LightManager F),
      m.active_mask < 2 ^ MAX_LIGHTS →
      (ops.foldl applyLightOp m).active_mask < 2 ^ MAX_LIGHTS := by
  intro ops
  induction ops with
  | nil => intro m h; exact h
  | cons op t ih =>
    intro m h
    exact ih (applyLightOp m op) (applyLightOp_mask m op h)

theorem runLightOps_mask [Zero F] [One F] (ops : List (LightOp F)) :
    (runLightOps ops).active_mask < 2 ^ MAX_LIGHTS := by
  apply foldl_lightOps_mask
  show (0 : Nat) < 2 ^ MAX_LIGHTS
  decide

/-- C2.  Light compaction and count invariant: for every LightManager
state reachable by any sequence of add_light/remove_light/update_light
calls, num_lights() equals the population count of the active bitmask,
and sync_to_gpu() returns the active lights compacted to the front of
the array in ascending slot-index order (activeIdx lists the active
slots in ascending order), with zeroed entries beyond the active count,
and with its num_lights field equal to num_lights(). -/
theorem c2_light_compaction {F : Type u} [Zero F] [One F]
    (ops : List (LightOp F)) :
    (runLightOps ops).num_lights = count_ones (runLightOps ops).active_mask ∧
    ((runLightOps ops).sync_to_gpu).num_lights = (runLightOps ops).num_lights ∧
    List.Pairwise (· < ·) (runLightOps ops).activeIdx ∧
    (∀ j, j < (runLightOps ops).num_lights →
      ((runLightOps ops).sync_to_gpu).lights j =
        (runLightOps ops).lights ((runLightOps ops).activeIdx.getD j 0)) ∧
    (∀ j, (runLightOps ops).num_lights ≤ j →
      ((runLightOps ops).sync_to_gpu).lights j = Light.default) := by
  have hmask := runLightOps_mask ops
  have hlen := num_lights_eq_activeIdx_length (runLightOps ops) hmask
  obtain ⟨h1, h2, h3⟩ := sync_to_gpu_spec (runLightOps ops)
  refine ⟨rfl, by rw [h1, hlen], ?_, ?_, ?_⟩
  · unfold LightManager.activeIdx
    exact List.Pairwise.sublist (List.filter_sublist _)
      (List.pairwise_lt_range _)
  · intro j hj
    rw [hlen] at hj
    exact h2 j hj
  · intro j hj
    rw [hlen] at hj
    exact h3 j hj

/-- Witness for C2 on the call sequence add, add, remove 0: one light
remains, and the compacted front entry is the light stored in slot 1. -/
theorem c2_light_compaction_witness :
    ((runLightOps [LightOp.add ((1 : Nat), 2, 3) (4, 5, 6, 7),
        LightOp.add (8, 9, 10) (11, 12, 13, 14),
        LightOp.remove 0]).sync_to_gpu).num_lights =
      (runLightOps [LightOp.add ((1 : Nat), 2, 3) (4, 5, 6, 7),
        LightOp.add (8, 9, 10) (11, 12, 13, 14),
        LightOp.remove 0]).num_lights ∧
    ((runLightOps [LightOp.add ((1 : Nat), 2, 3) (4, 5, 6, 7),
        LightOp.add (8, 9, 10) (11, 12, 13, 14),
        LightOp.remove 0]).sync_to_gpu).lights 0 =
      (runLightOps [LightOp.add ((1 : Nat), 2, 3) (4, 5, 6, 7),
        LightOp.add (8, 9, 10) (11, 12, 13, 14),
        LightOp.remove 0]).lights 1 := by
  have h := c2_light_compaction
    [LightOp.add ((1 : Nat), 2, 3) (4, 5, 6, 7),
     LightOp.add (8, 9, 10) (11, 12, 13, 14),
     LightOp.remove 0]
  refine ⟨h.2.1, ?_⟩
  have h4 := h.2.2.2.1 0 (by decide)
  have hidx : (runLightOps [LightOp.add ((1 : Nat), 2, 3) (4, 5, 6, 7),
      LightOp.add (8, 9, 10) (11, 12, 13, 14),
      LightOp.remove 0]).activeIdx.getD 0 0 = 1 := by decide
  rw [hidx] at h4
  exact h4

/-- C5.  Light capacity and first-fit: for every LightManager state with
an unoccupied slot, add_light returns Some of the smallest unoccupied
slot index, stores the homogenised light there, sets the mask bit and
the dirty flag; when all ten slots are occupied it returns None and
leaves the whole manager unchanged. -/
theorem c5_add_light_first_fit {F : Type u} [One F] (m : LightManager F)
    (pos : F × F × F) (color : F × F × F × F) :
    (∀ i, i < MAX_LIGHTS → Nat.land m.active_mask (1 <<< i) = 0 →
      (∀ j, j < i → ¬ Nat.land m.active_mask (1 <<< j) = 0) →
      m.add_light pos color =
        (some i,
          { m with
            lights := Function.update m.lights i
              ⟨(pos.1, pos.2.1, pos.2.2, 1), color⟩,
            active_mask := m.active_mask ||| (1 <<< i),
            dirty := true })) ∧
    ((∀ i, i < MAX_LIGHTS → ¬ Nat.land m.active_mask (1 <<< i) = 0) →
      m.add_light pos color = (none, m)) := by
  constructor
  · intro i hi hfree hmin
    exact addLightLoop_found m pos color MAX_LIGHTS 0 i (Nat.zero_le i)
      (by omega) hfree (fun j _ hj => hmin j hj)
  · intro hocc
    exact addLightLoop_none m pos color MAX_LIGHTS 0
      (fun j _ hj => hocc j (by omega))

/-- Witness for C5: with mask 0b1011 the first free slot is 2 and the
add lands there; with all ten bits set the add returns None and leaves
the manager unchanged. -/
theorem c5_add_light_first_fit_witness :
    (LightManager.add_light
        ⟨fun _ => Light.default, 11, false, "m", "k"⟩
        ((20 : Nat), 21, 22) (23, 24, 25, 26) =
      (some 2,
        { lights := Function.update
            (fun _ => Light.default (F := Nat)) 2
            ⟨(20, 21, 22, 1), (23, 24, 25, 26)⟩,
          active_mask := 11 ||| (1 <<< 2),
          dirty := true,
          model_path := "m",
          material_key := "k" })) ∧
    (LightManager.add_light
        ⟨fun _ => Light.default, 1023, false, "m", "k"⟩
        ((20 : Nat), 21, 22) (23, 24, 25, 26) =
      (none, ⟨fun _ => Light.default, 1023, false, "m", "k"⟩)) := by
  constructor
  · exact (c5_add_light_first_fit
      ⟨fun _ => Light.default, 11, false, "m", "k"⟩
      ((20 : Nat), 21, 22) (23, 24, 25, 26)).1 2 (by decide) (by decide)
      (by decide)
  · exact (c5_add_light_first_fit
      ⟨fun _ => Light.default, 1023, false, "m", "k"⟩
      ((20 : Nat), 21, 22) (23, 24, 25, 26)).2 (by decide)

/-- C10.  Out-of-range light indices are safe no-ops: for every manager
state and index at least 10, is_active is false, get_light is None, and
update_light and remove_light leave the manager unchanged. -/
theorem c10_out_of_range_noop {F : Type u} [One F] (m : LightManager F)
    (i : Nat) (p : F × F × F) (c : F × F × F × F) (h : MAX_LIGHTS ≤ i) :
    m.is_active i = false ∧
    m.get_light i = none ∧
    m.update_light i p c = m ∧
    m.remove_light i = m := by
  have hact : m.is_active i = false := by
    unfold LightManager.is_active
    have hnl : ¬ i < MAX_LIGHTS := by omega
    simp [hnl]
  refine ⟨hact, ?_, ?_, ?_⟩
  · unfold LightManager.get_light
    rw [hact]
    simp
  · unfold LightManager.update_light
    rw [hact]
    simp
  · unfold LightManager.remove_light
    rw [if_neg (by omega : ¬ i < MAX_LIGHTS)]

/-- Witness for C10 at index 10 on a manager with two active slots. -/
theorem c10_out_of_range_noop_witness :
    LightManager.is_active
        (⟨fun _ => Light.default, 3, false, "m", "k"⟩ : LightManager Nat)
        10 = false ∧
    LightManager.get_light
        (⟨fun _ => Light.default, 3, false, "m", "k"⟩ : LightManager Nat)
        10 = none ∧
    LightManager.update_light
        (⟨fun _ => Light.default, 3, false, "m", "k"⟩ : LightManager Nat)
        10 (30, 31, 32) (33, 34, 35, 36) =
      ⟨fun _ => Light.default, 3, false, "m", "k"⟩ ∧
    LightManager.remove_light
        (⟨fun _ => Light.default, 3, false, "m", "k"⟩ : LightManager Nat)
        10 =
      ⟨fun _ => Light.default, 3, false, "m", "k"⟩ :=
  c10_out_of_range_noop
    (⟨fun _ => Light.default, 3, false, "m", "k"⟩ : LightManager Nat)
    10 (30, 31, 32) (33, 34, 35, 36) (by decide)

theorem grid_mark_dirty_mark_dirty (g : GridParticleSystem F I)
    (t u : Nat) : (g.mark_dirty t).mark_dirty u = g.mark_dirty u :=
  rfl

theorem grid_foldl_mark_dirty (g : GridParticleSystem F I) :
    ∀ (ts : List Nat) (t0 : Nat),
      (t0 :: ts).foldl GridParticleSystem.mark_dirty g =
        g.mark_dirty ((t0 :: ts).getLastD 0) := by
  intro ts
  induction ts generalizing g with
  | nil => intro t0; simp [List.getLastD]
  | cons t1 ts' ih =>
    intro t0
    have h1 : (t0 :: t1 :: ts').foldl GridParticleSystem.mark_dirty g =
        (t1 :: ts').foldl GridParticleSystem.mark_dirty (g.mark_dirty t0) := by
      simp [List.foldl_cons]
    rw [h1, ih (g.mark_dirty t0) t1, grid_mark_dirty_mark_dirty]
    simp [List.getLastD]

theorem sphere_mark_dirty_mark_dirty (s : SphereParticleSystem F I)
    (t u : Nat) : (s.mark_dirty t).mark_dirty u = s.mark_dirty u :=
  rfl

theorem sphere_foldl_mark_dirty (s : SphereParticleSystem F I) :
    ∀ (ts : List Nat) (t0 : Nat),
      (t0 :: ts).foldl SphereParticleSystem.mark_dirty s =
        s.mark_dirty ((t0 :: ts).getLastD 0) := by
  intro ts
  induction ts generalizing s with
  | nil => intro t0; simp [List.getLastD]
  | cons t1 ts' ih =>
    intro t0
    have h1 : (t0 :: t1 :: ts').foldl SphereParticleSystem.mark_dirty s =
        (t1 :: ts').foldl SphereParticleSystem.mark_dirty (s.mark_dirty t0) := by
      simp [List.foldl_cons]
    rw [h1, ih (s.mark_dirty t0) t1, sphere_mark_dirty_mark_dirty]
    simp [List.getLastD]

/-- C4.  Debounce semantics: needs_rebuild() is true iff the dirty flag
is set and at least DEBOUNCE_MS = 20 ms elapsed since the last edit;
immediately after rebuild() it is false; and any nonempty sequence of
mark_dirty calls followed by the debounce window passing yields exactly
one needed rebuild (true once, then false after the single rebuild),
for both grid and sphere systems. -/
theorem c4_debounce {F I : Type u} (g : GridParticleSystem F I)
    (s : SphereParticleSystem F I) (dev dev' : Device)
    (mkG : Nat → Nat → I) (mkS : Nat → I) (now later t0 : Nat)
    (ts : List Nat) :
    (g.needs_rebuild_at now = true ↔
      (g.needs_rebuild = true ∧ DEBOUNCE_MS ≤ now - g.last_edit_time)) ∧
    ((g.rebuild dev mkG).1.needs_rebuild_at later = false) ∧
    (s.needs_rebuild_at now = true ↔
      (s.needs_rebuild = true ∧ DEBOUNCE_MS ≤ now - s.last_edit_time)) ∧
    ((s.rebuild dev' mkS).1.needs_rebuild_at later = false) ∧
    (((t0 :: ts).foldl GridParticleSystem.mark_dirty g).needs_rebuild_at
      ((t0 :: ts).getLastD 0 + DEBOUNCE_MS) = true) ∧
    ((((t0 :: ts).foldl GridParticleSystem.mark_dirty g).rebuild dev
      mkG).1.needs_rebuild_at later = false) ∧
    (((t0 :: ts).foldl SphereParticleSystem.mark_dirty s).needs_rebuild_at
      ((t0 :: ts).getLastD 0 + DEBOUNCE_MS) = true) ∧
    ((((t0 :: ts).foldl SphereParticleSystem.mark_dirty s).rebuild dev'
      mkS).1.needs_rebuild_at later = false) := by
  refine ⟨?_, ?_, ?_, ?_, ?_, ?_, ?_, ?_⟩
  · simp [GridParticleSystem.needs_rebuild_at]
  · simp [GridParticleSystem.rebuild, GridParticleSystem.needs_rebuild_at]
  · simp [SphereParticleSystem.needs_rebuild_at]
  · simp [SphereParticleSystem.rebuild, SphereParticleSystem.needs_rebuild_at]
  · rw [grid_foldl_mark_dirty]
    simp [GridParticleSystem.mark_dirty, GridParticleSystem.needs_rebuild_at]
  · rw [grid_foldl_mark_dirty]
    simp [GridParticleSystem.mark_dirty, GridParticleSystem.rebuild,
      GridParticleSystem.needs_rebuild_at]
  · rw [sphere_foldl_mark_dirty]
    simp [SphereParticleSystem.mark_dirty,
      SphereParticleSystem.needs_rebuild_at]
  · rw [sphere_foldl_mark_dirty]
    simp [SphereParticleSystem.mark_dirty, SphereParticleSystem.rebuild,
      SphereParticleSystem.needs_rebuild_at]

/-- Counterexample to C7 as stated: a grid system whose regenerated
instance count (4, for rows = 2) equals both the stored count and the
buffer capacity, yet rebuild() returns a buffer with a fresh identity -
the existing buffer object is not kept and no in-place write happens. -/
theorem c7_counterexample :
    ((GridParticleSystem.rebuild
        ⟨"g", ⟨2, (1 : Nat), (0, 0, 0)⟩, "mp", "mk",
          ⟨0, [0, 0, 0, 0]⟩, 4, true, 0⟩
        ⟨1⟩ (fun _ _ => 0)).1.num_instances = 4) ∧
    ((GridParticleSystem.rebuild
        ⟨"g", ⟨2, (1 : Nat), (0, 0, 0)⟩, "mp", "mk",
          ⟨0, [0, 0, 0, 0]⟩, 4, true, 0⟩
        ⟨1⟩ (fun _ _ => 0)).1.instance_buffer.id ≠ 0) := by
  constructor
  · decide
  · decide

/-- C7 amended: rebuild() always allocates a fresh GPU instance buffer
initialised with the regenerated contents - regardless of whether the
new count equals the current capacity - and never writes the old buffer
in place; the old buffer identity is never reused (grid and sphere). -/
theorem c7_rebuild_always_allocates {F I : Type u}
    (g : GridParticleSystem F I) (s : SphereParticleSystem F I)
    (dev dev' : Device) (mkG : Nat → Nat → I) (mkS : Nat → I)
    (hg : g.instance_buffer.id < dev.next_id)
    (hs : s.instance_buffer.id < dev'.next_id) :
    ((g.rebuild dev mkG).1.instance_buffer.id = dev.next_id ∧
      (g.rebuild dev mkG).1.instance_buffer.id ≠ g.instance_buffer.id ∧
      (g.rebuild dev mkG).2.next_id = dev.next_id + 1 ∧
      (g.rebuild dev mkG).1.instance_buffer.contents =
        generate_grid_instances mkG (g.params.rows * g.params.rows)
          g.params ∧
      (g.rebuild dev mkG).1.num_instances =
        (generate_grid_instances mkG (g.params.rows * g.params.rows)
          g.params).length) ∧
    ((s.rebuild dev' mkS).1.instance_buffer.id = dev'.next_id ∧
      (s.rebuild dev' mkS).1.instance_buffer.id ≠ s.instance_buffer.id ∧
      (s.rebuild dev' mkS).2.next_id = dev'.next_id + 1 ∧
      (s.rebuild dev' mkS).1.instance_buffer.contents =
        generate_sphere_instances mkS s.params ∧
      (s.rebuild dev' mkS).1.num_instances =
        (generate_sphere_instances mkS s.params).length) := by
  refine ⟨⟨rfl, ?_, rfl, rfl, rfl⟩, ⟨rfl, ?_, rfl, rfl, rfl⟩⟩
  · show dev.next_id ≠ g.instance_buffer.id
    omega
  · show dev'.next_id ≠ s.instance_buffer.id
    omega

/-- Witness for the amended C7 at a concrete grid and sphere system. -/
theorem c7_rebuild_always_allocates_witness :
    ((GridParticleSystem.rebuild
        ⟨"g", ⟨2, (1 : Nat), (0, 0, 0)⟩, "mp", "mk", ⟨0, []⟩, 4, true, 0⟩
        ⟨5⟩ (fun _ _ => 0)).1.instance_buffer.id = 5) ∧
    ((GridParticleSystem.rebuild
        ⟨"g", ⟨2, (1 : Nat), (0, 0, 0)⟩, "mp", "mk", ⟨0, []⟩, 4, true, 0⟩
        ⟨5⟩ (fun _ _ => 0)).1.instance_buffer.id ≠ 0) ∧
    ((SphereParticleSystem.rebuild
        ⟨"s", ⟨3, (1 : Nat), (0, 0, 0)⟩, "mp", "mk", ⟨2, []⟩, 3, true, 0⟩
        ⟨7⟩ (fun _ => 0)).1.instance_buffer.id = 7) := by
  have h := c7_rebuild_always_allocates
    (⟨"g", ⟨2, (1 : Nat), (0, 0, 0)⟩, "mp", "mk", ⟨0, []⟩, 4, true, 0⟩ :
      GridParticleSystem Nat Nat)
    (⟨"s", ⟨3, (1 : Nat), (0, 0, 0)⟩, "mp", "mk", ⟨2, []⟩, 3, true, 0⟩ :
      SphereParticleSystem Nat Nat)
    ⟨5⟩ ⟨7⟩ (fun _ _ => 0) (fun _ => 0) (by decide) (by decide)
  exact ⟨h.1.1, h.1.2.1, h.2.1⟩

/-- Counterexample to C8 as stated: changing only the spacing of a grid
system (rows unchanged) through update_params leaves the dirty flag
clear - not every parameter edit marks dirty. -/
theorem c8_counterexample :
    ¬ ((GridParticleSystem.update_params
        ⟨"g", ⟨2, (1 : Nat), (0, 0, 0)⟩, "mp", "mk", ⟨0, ([] : List Nat)⟩,
          4, false, 0⟩
        ⟨2, 5, (0, 0, 0)⟩ 99).needs_rebuild = true) := by
  decide

/-- C8 amended: update_params stores the new params and invokes
mark_dirty (setting the dirty flag and refreshing the last-edit
timestamp) iff the row count (grid) resp. instance count (sphere)
changed; edits that change only spacing/radius or center do not mark
dirty (they reach the GPU through the uniform update instead). -/
theorem c8_update_params_dirty_iff {F I : Type u}
    (g : GridParticleSystem F I) (s : SphereParticleSystem F I)
    (p : GridParams F) (q : SphereParams F) (now : Nat) :
    ((g.update_params p now).params = p ∧
      (g.update_params p now).needs_rebuild =
        (g.needs_rebuild || decide (g.params.rows ≠ p.rows)) ∧
      (g.update_params p now).last_edit_time =
        (if g.params.rows ≠ p.rows then now else g.last_edit_time)) ∧
    ((s.update_params q now).params = q ∧
      (s.update_params q now).needs_rebuild =
        (s.needs_rebuild || decide (s.params.count ≠ q.count)) ∧
      (s.update_params q now).last_edit_time =
        (if s.params.count ≠ q.count then now else s.last_edit_time)) := by
  constructor
  · by_cases h : g.params.rows = p.rows
    · simp [GridParticleSystem.update_params, GridParticleSystem.mark_dirty, h]
    · simp [GridParticleSystem.update_params, GridParticleSystem.mark_dirty, h]
  · by_cases h : s.params.count = q.count
    · simp [SphereParticleSystem.update_params,
        SphereParticleSystem.mark_dirty, h]
    · simp [SphereParticleSystem.update_params,
        SphereParticleSystem.mark_dirty, h]

theorem mapContains_filter_self (k : String) (m : List (String × α)) :
    mapContains k (m.filter (fun p => decide (p.1 ≠ k))) = false := by
  rw [mapContains]
  by_contra h
  rw [Bool.not_eq_false, List.any_eq_true] at h
  obtain ⟨x, hx, hpx⟩ := h
  rw [List.mem_filter] at hx
  simp only [decide_eq_true_eq] at hx hpx
  exact hx.2 hpx

theorem mapContains_filter_ne (k k' : String) (m : List (String × α))
    (h : k' ≠ k) :
    mapContains k' (m.filter (fun p => decide (p.1 ≠ k))) =
      mapContains k' m := by
  induction m with
  | nil => rfl
  | cons p t ih =>
    by_cases hp : p.1 = k
    · rw [List.filter_cons_of_neg (by simp [hp])]
      have hpk' : decide (p.1 = k') = false := by
        simp only [decide_eq_false_iff_not]
        rw [hp]
        exact fun he => h he.symm
      rw [ih]
      rw [mapContains, mapContains, List.any_cons, hpk', Bool.false_or]
    · rw [List.filter_cons_of_pos (by simp [hp])]
      rw [mapContains, mapContains, List.any_cons, List.any_cons]
      rw [show (t.filter (fun p => decide (p.1 ≠ k))).any
          (fun p => decide (p.1 = k')) = mapContains k' t from ih]
      rfl

theorem mapLookup_cons_of_eq (p : String × α) (t : List (String × α))
    (k' : String) (h : p.1 = k') :
    mapLookup k' (p :: t) = some p.2 := by
  rw [mapLookup]
  have hp : (fun q : String × α => decide (q.1 = k')) p = true := by
    simp [h]
  rw [List.find?_cons_of_pos t hp]
  rfl

theorem mapLookup_cons_of_ne (p : String × α) (t : List (String × α))
    (k' : String) (h : ¬ p.1 = k') :
    mapLookup k' (p :: t) = mapLookup k' t := by
  rw [mapLookup, mapLookup]
  have hp : ¬ (fun q : String × α => decide (q.1 = k')) p = true := by
    simp [h]
  rw [List.find?_cons_of_neg t hp]

theorem mapLookup_filter_ne (k k' : String) (m : List (String × α))
    (h : k' ≠ k) :
    mapLookup k' (m.filter (fun p => decide (p.1 ≠ k))) =
      mapLookup k' m := by
  induction m with
  | nil => rfl
  | cons p t ih =>
    by_cases hp : p.1 = k
    · rw [List.filter_cons_of_neg (by simp [hp]), ih,
        mapLookup_cons_of_ne p t k' (by rw [hp]; exact fun he => h he.symm)]
    · rw [List.filter_cons_of_pos (by simp [hp])]
      by_cases hpk' : p.1 = k'
      · rw [mapLookup_cons_of_eq p _ k' hpk', mapLookup_cons_of_eq p t k' hpk']
      · rw [mapLookup_cons_of_ne p _ k' hpk',
          mapLookup_cons_of_ne p t k' hpk', ih]

theorem mapLookup_insert_self (k : String) (v : α)
    (m : List (String × α)) : mapLookup k (mapInsert k v m) = some v := by
  rw [mapInsert, mapLookup_cons_of_eq (k, v) _ k rfl]

theorem mapLookup_insert_ne (k k' : String) (v : α)
    (m : List (String × α)) (h : k' ≠ k) :
    mapLookup k' (mapInsert k v m) = mapLookup k' m := by
  rw [mapInsert, mapLookup_cons_of_ne (k, v) _ k' (fun he => h he.symm)]
  exact mapLookup_filter_ne k k' m h

theorem mapContains_insert_self (k : String) (v : α)
    (m : List (String × α)) : mapContains k (mapInsert k v m) = true := by
  rw [mapInsert, mapContains, List.any_cons]
  simp

theorem mapContains_insert_ne (k k' : String) (v : α)
    (m : List (String × α)) (h : k' ≠ k) :
    mapContains k' (mapInsert k v m) = mapContains k' m := by
  rw [mapInsert, mapContains, List.any_cons]
  have hd : decide ((k, v).1 = k') = false := by
    simp only [decide_eq_false_iff_not]
    exact fun he => h he.symm
  rw [hd, Bool.false_or, ← mapContains]
  exact mapContains_filter_ne k k' m h

theorem mapContains_remove_self (k : String) (m : List (String × α)) :
    mapContains k (mapRemove k m) = false :=
  mapContains_filter_self k m

theorem mapContains_remove_ne (k k' : String) (m : List (String × α))
    (h : k' ≠ k) : mapContains k' (mapRemove k m) = mapContains k' m :=
  mapContains_filter_ne k k' m h

theorem mapLookup_remove_ne (k k' : String) (m : List (String × α))
    (h : k' ≠ k) : mapLookup k' (mapRemove k m) = mapLookup k' m :=
  mapLookup_filter_ne k k' m h

theorem mapContains_eq_isSome_lookup (k : String)
    (m : List (String × α)) :
    mapContains k m = (mapLookup k m).isSome := by
  induction m with
  | nil => rfl
  | cons p t ih =>
    by_cases hp : p.1 = k
    · rw [mapContains, List.any_cons, mapLookup_cons_of_eq p t k hp]
      simp [hp]
    · rw [mapContains, List.any_cons, mapLookup_cons_of_ne p t k hp, ← ih,
        mapContains]
      simp [hp]

theorem mapLookup_remove_self (k : String) (m : List (String × α)) :
    mapLookup k (mapRemove k m) = none := by
  have h := mapContains_eq_isSome_lookup k (mapRemove k m)
  rw [mapContains_remove_self] at h
  cases hl : mapLookup k (mapRemove k m) with
  | none => rfl
  | some v =>
    rw [hl] at h
    cases h

theorem filter_ne_of_not_contains (k : String) (m : List (String × α))
    (h : mapContains k m = false) :
    m.filter (fun p => decide (p.1 ≠ k)) = m := by
  apply List.filter_eq_self.mpr
  intro p hp
  simp only [decide_eq_true_eq]
  intro he
  have hc : m.any (fun p => decide (p.1 = k)) = true :=
    List.any_eq_true.mpr ⟨p, hp, by simp [he]⟩
  rw [mapContains] at h
  rw [h] at hc
  cases hc

theorem length_filter_ne_of_contains (k : String)
    (m : List (String × α)) (hn : keysNodup m)
    (h : mapContains k m = true) :
    (m.filter (fun p => decide (p.1 ≠ k))).length + 1 = m.length := by
  induction m with
  | nil => cases h
  | cons p t ih =>
    rw [keysNodup, List.map_cons, List.nodup_cons] at hn
    by_cases hp : p.1 = k
    · rw [List.filter_cons_of_neg (by simp [hp])]
      have hc : mapContains k t = false := by
        by_contra hcc
        rw [Bool.not_eq_false, mapContains, List.any_eq_true] at hcc
        obtain ⟨x, hx, hxk⟩ := hcc
        simp only [decide_eq_true_eq] at hxk
        apply hn.1
        rw [List.mem_map]
        exact ⟨x, hx, by rw [hxk, hp]⟩
      rw [filter_ne_of_not_contains k t hc]
      rfl
    · rw [List.filter_cons_of_pos (by simp [hp])]
      have hct : mapContains k t = true := by
        rw [mapContains, List.any_cons, Bool.or_eq_true] at h
        rcases h with h1 | h1
        · rw [decide_eq_true_eq] at h1
          exact absurd h1 hp
        · exact h1
      have := ih hn.2 hct
      simp only [List.length_cons]
      omega

theorem length_mapInsert_of_not_contains (k : String) (v : α)
    (m : List (String × α)) (h : mapContains k m = false) :
    (mapInsert k v m).length = m.length + 1 := by
  rw [mapInsert, List.length_cons, filter_ne_of_not_contains k m h]

theorem length_mapInsert_of_contains (k : String) (v : α)
    (m : List (String × α)) (hn : keysNodup m)
    (h : mapContains k m = true) :
    (mapInsert k v m).length = m.length := by
  rw [mapInsert, List.length_cons]
  exact length_filter_ne_of_contains k m hn h

theorem length_mapRemove_of_contains (k : String)
    (m : List (String × α)) (hn : keysNodup m)
    (h : mapContains k m = true) :
    (mapRemove k m).length + 1 = m.length :=
  length_filter_ne_of_contains k m hn h

theorem keysNodup_filter_ne (k : String) (m : List (String × α))
    (hn : keysNodup m) :
    keysNodup (m.filter (fun p => decide (p.1 ≠ k))) :=
  hn.sublist ((List.filter_sublist m).map Prod.fst)

theorem keysNodup_remove (k : String) (m : List (String × α))
    (hn : keysNodup m) : keysNodup (mapRemove k m) :=
  keysNodup_filter_ne k m hn

theorem keysNodup_insert (k : String) (v : α) (m : List (String × α))
    (hn : keysNodup m) : keysNodup (mapInsert k v m) := by
  rw [keysNodup, mapInsert, List.map_cons, List.nodup_cons]
  constructor
  · intro hmem
    rw [List.mem_map] at hmem
    obtain ⟨x, hx, hxk⟩ := hmem
    have hc : mapContains k
        (m.filter (fun p => decide (p.1 ≠ k))) = true :=
      List.any_eq_true.mpr ⟨x, hx, by simp [hxk]⟩
    rw [mapContains_filter_self] at hc
    cases hc
  · exact keysNodup_filter_ne k m hn

theorem psInv_new : PsInv (ParticleSystemManager.new (G := G) (S := S)) where
  nodupG := List.nodup_nil
  nodupS := List.nodup_nil
  nodupK := List.nodup_nil
  gridMem := fun n h => by cases h
  sphereMem := fun n h => by cases h
  noneMem := fun _ _ => ⟨rfl, rfl⟩
  countEq := rfl

theorem psInv_add_grid (m : ParticleSystemManager G S) (n : String)
    (g : G) (hinv : PsInv m)
    (hleg : ¬ mapLookup n m.name_to_kind = some ParticleSystemKind.Sphere) :
    PsInv (m.add_grid n g) := by
  refine ⟨?_, ?_, ?_, ?_, ?_, ?_, ?_⟩
  · exact keysNodup_insert n g m.grids hinv.nodupG
  · exact hinv.nodupS
  · exact keysNodup_insert n _ m.name_to_kind hinv.nodupK
  · intro n' hl
    by_cases hn : n' = n
    · subst hn
      refine ⟨mapContains_insert_self n' g m.grids, ?_⟩
      cases hk : mapLookup n' m.name_to_kind with
      | none => exact (hinv.noneMem n' hk).2
      | some kind =>
        cases kind with
        | Grid => exact (hinv.gridMem n' hk).2
        | Sphere => exact absurd hk hleg
    · rw [show (m.add_grid n g).name_to_kind =
          mapInsert n ParticleSystemKind.Grid m.name_to_kind from rfl,
        mapLookup_insert_ne n n' _ _ hn] at hl
      refine ⟨?_, (hinv.gridMem n' hl).2⟩
      rw [show (m.add_grid n g).grids = mapInsert n g m.grids from rfl,
        mapContains_insert_ne n n' g m.grids hn]
      exact (hinv.gridMem n' hl).1
  · intro n' hl
    by_cases hn : n' = n
    · subst hn
      rw [show (m.add_grid n' g).name_to_kind =
          mapInsert n' ParticleSystemKind.Grid m.name_to_kind from rfl,
        mapLookup_insert_self] at hl
      simp at hl
    · rw [show (m.add_grid n g).name_to_kind =
          mapInsert n ParticleSystemKind.Grid m.name_to_kind from rfl,
        mapLookup_insert_ne n n' _ _ hn] at hl
      refine ⟨(hinv.sphereMem n' hl).1, ?_⟩
      rw [show (m.add_grid n g).grids = mapInsert n g m.grids from rfl,
        mapContains_insert_ne n n' g m.grids hn]
      exact (hinv.sphereMem n' hl).2
  · intro n' hl
    by_cases hn : n' = n
    · subst hn
      rw [show (m.add_grid n' g).name_to_kind =
          mapInsert n' ParticleSystemKind.Grid m.name_to_kind from rfl,
        mapLookup_insert_self] at hl
      simp at hl
    · rw [show (m.add_grid n g).name_to_kind =
          mapInsert n ParticleSystemKind.Grid m.name_to_kind from rfl,
        mapLookup_insert_ne n n' _ _ hn] at hl
      refine ⟨?_, (hinv.noneMem n' hl).2⟩
      rw [show (m.add_grid n g).grids = mapInsert n g m.grids from rfl,
        mapContains_insert_ne n n' g m.grids hn]
      exact (hinv.noneMem n' hl).1
  · show (mapInsert n g m.grids).length + m.spheres.length =
      (mapInsert n ParticleSystemKind.Grid m.name_to_kind).length
    have hcount := hinv.countEq
    rw [ParticleSystemManager.count] at hcount
    cases hk : mapLookup n m.name_to_kind with
    | none =>
      have hcg : mapContains n m.grids = false := (hinv.noneMem n hk).1
      have hck : mapContains n m.name_to_kind = false := by
        rw [mapContains_eq_isSome_lookup, hk]
        rfl
      rw [length_mapInsert_of_not_contains n g _ hcg,
        length_mapInsert_of_not_contains n _ _ hck]
      omega
    | some kind =>
      cases kind with
      | Grid =>
        have hcg : mapContains n m.grids = true := (hinv.gridMem n hk).1
        have hck : mapContains n m.name_to_kind = true := by
          rw [mapContains_eq_isSome_lookup, hk]
          rfl
        rw [length_mapInsert_of_contains n g _ hinv.nodupG hcg,
          length_mapInsert_of_contains n _ _ hinv.nodupK hck]
        exact hcount
      | Sphere => exact absurd hk hleg

theorem psInv_add_sphere (m : ParticleSystemManager G S) (n : String)
    (s : S) (hinv : PsInv m)
    (hleg : ¬ mapLookup n m.name_to_kind = some ParticleSystemKind.Grid) :
    PsInv (m.add_sphere n s) := by
  refine ⟨?_, ?_, ?_, ?_, ?_, ?_, ?_⟩
  · exact hinv.nodupG
  · exact keysNodup_insert n s m.spheres hinv.nodupS
  · exact keysNodup_insert n _ m.name_to_kind hinv.nodupK
  · intro n' hl
    by_cases hn : n' = n
    · subst hn
      rw [show (m.add_sphere n' s).name_to_kind =
          mapInsert n' ParticleSystemKind.Sphere m.name_to_kind from rfl,
        mapLookup_insert_self] at hl
      simp at hl
    · rw [show (m.add_sphere n s).name_to_kind =
          mapInsert n ParticleSystemKind.Sphere m.name_to_kind from rfl,
        mapLookup_insert_ne n n' _ _ hn] at hl
      refine ⟨(hinv.gridMem n' hl).1, ?_⟩
      rw [show (m.add_sphere n s).spheres = mapInsert n s m.spheres from rfl,
        mapContains_insert_ne n n' s m.spheres hn]
      exact (hinv.gridMem n' hl).2
  · intro n' hl
    by_cases hn : n' = n
    · subst hn
      refine ⟨mapContains_insert_self n' s m.spheres, ?_⟩
      cases hk : mapLookup n' m.name_to_kind with
      | none => exact (hinv.noneMem n' hk).1
      | some kind =>
        cases kind with
        | Sphere => exact (hinv.sphereMem n' hk).2
        | Grid => exact absurd hk hleg
    · rw [show (m.add_sphere n s).name_to_kind =
          mapInsert n ParticleSystemKind.Sphere m.name_to_kind from rfl,
        mapLookup_insert_ne n n' _ _ hn] at hl
      refine ⟨?_, (hinv.sphereMem n' hl).2⟩
      rw [show (m.add_sphere n s).spheres = mapInsert n s m.spheres from rfl,
        mapContains_insert_ne n n' s m.spheres hn]
      exact (hinv.sphereMem n' hl).1
  · intro n' hl
    by_cases hn : n' = n
    · subst hn
      rw [show (m.add_sphere n' s).name_to_kind =
          mapInsert n' ParticleSystemKind.Sphere m.name_to_kind from rfl,
        mapLookup_insert_self] at hl
      simp at hl
    · rw [show (m.add_sphere n s).name_to_kind =
          mapInsert n ParticleSystemKind.Sphere m.name_to_kind from rfl,
        mapLookup_insert_ne n n' _ _ hn] at hl
      refine ⟨(hinv.noneMem n' hl).1, ?_⟩
      rw [show (m.add_sphere n s).spheres = mapInsert n s m.spheres from rfl,
        mapContains_insert_ne n n' s m.spheres hn]
      exact (hinv.noneMem n' hl).2
  · show m.grids.length + (mapInsert n s m.spheres).length =
      (mapInsert n ParticleSystemKind.Sphere m.name_to_kind).length
    have hcount := hinv.countEq
    rw [ParticleSystemManager.count] at hcount
    cases hk : mapLookup n m.name_to_kind with
    | none =>
      have hcs : mapContains n m.spheres = false := (hinv.noneMem n hk).2
      have hck : mapContains n m.name_to_kind = false := by
        rw [mapContains_eq_isSome_lookup, hk]
        rfl
      rw [length_mapInsert_of_not_contains n s _ hcs,
        length_mapInsert_of_not_contains n _ _ hck]
      omega
    | some kind =>
      cases kind with
      | Sphere =>
        have hcs : mapContains n m.spheres = true := (hinv.sphereMem n hk).1
        have hck : mapContains n m.name_to_kind = true := by
          rw [mapContains_eq_isSome_lookup, hk]
          rfl
        rw [length_mapInsert_of_contains n s _ hinv.nodupS hcs,
          length_mapInsert_of_contains n _ _ hinv.nodupK hck]
        exact hcount
      | Grid => exact absurd hk hleg

theorem psInv_remove (m : ParticleSystemManager G S) (n : String)
    (hinv : PsInv m) : PsInv (m.remove n).2 := by
  cases hk : mapLookup n m.name_to_kind with
  | none =>
    have he : (m.remove n).2 = m := by
      simp only [ParticleSystemManager.remove, hk]
    rw [he]
    exact hinv
  | some kind =>
    have hck : mapContains n m.name_to_kind = true := by
      rw [mapContains_eq_isSome_lookup, hk]
      rfl
    cases kind with
    | Grid =>
      have he : (m.remove n).2 =
          { m with
            name_to_kind := mapRemove n m.name_to_kind,
            grids := mapRemove n m.grids } := by
        simp only [ParticleSystemManager.remove, hk]
      rw [he]
      refine ⟨keysNodup_remove n m.grids hinv.nodupG, hinv.nodupS,
        keysNodup_remove n m.name_to_kind hinv.nodupK, ?_, ?_, ?_, ?_⟩
      · intro n' hl
        by_cases hn : n' = n
        · subst hn
          rw [show ({ m with
              name_to_kind := mapRemove n' m.name_to_kind,
              grids := mapRemove n' m.grids } :
              ParticleSystemManager G S).name_to_kind =
            mapRemove n' m.name_to_kind from rfl,
            mapLookup_remove_self] at hl
          cases hl
        · rw [show ({ m with
              name_to_kind := mapRemove n m.name_to_kind,
              grids := mapRemove n m.grids } :
              ParticleSystemManager G S).name_to_kind =
            mapRemove n m.name_to_kind from rfl,
            mapLookup_remove_ne n n' _ hn] at hl
          refine ⟨?_, (hinv.gridMem n' hl).2⟩
          rw [show ({ m with
              name_to_kind := mapRemove n m.name_to_kind,
              grids := mapRemove n m.grids } :
              ParticleSystemManager G S).grids =
            mapRemove n m.grids from rfl,
            mapContains_remove_ne n n' m.grids hn]
          exact (hinv.gridMem n' hl).1
      · intro n' hl
        by_cases hn : n' = n
        · subst hn
          rw [show ({ m with
              name_to_kind := mapRemove n' m.name_to_kind,
              grids := mapRemove n' m.grids } :
              ParticleSystemManager G S).name_to_kind =
            mapRemove n' m.name_to_kind from rfl,
            mapLookup_remove_self] at hl
          cases hl
        · rw [show ({ m with
              name_to_kind := mapRemove n m.name_to_kind,
              grids := mapRemove n m.grids } :
              ParticleSystemManager G S).name_to_kind =
            mapRemove n m.name_to_kind from rfl,
            mapLookup_remove_ne n n' _ hn] at hl
          refine ⟨(hinv.sphereMem n' hl).1, ?_⟩
          rw [show ({ m with
              name_to_kind := mapRemove n m.name_to_kind,
              grids := mapRemove n m.grids } :
              ParticleSystemManager G S).grids =
            mapRemove n m.grids from rfl,
            mapContains_remove_ne n n' m.grids hn]
          exact (hinv.sphereMem n' hl).2
      · intro n' hl
        by_cases hn : n' = n
        · subst hn
          refine ⟨mapContains_remove_self n' m.grids, ?_⟩
          exact (hinv.gridMem n' hk).2
        · rw [show ({ m with
              name_to_kind := mapRemove n m.name_to_kind,
              grids := mapRemove n m.grids } :
              ParticleSystemManager G S).name_to_kind =
            mapRemove n m.name_to_kind from rfl,
            mapLookup_remove_ne n n' _ hn] at hl
          refine ⟨?_, (hinv.noneMem n' hl).2⟩
          rw [show ({ m with
              name_to_kind := mapRemove n m.name_to_kind,
              grids := mapRemove n m.grids } :
              ParticleSystemManager G S).grids =
            mapRemove n m.grids from rfl,
            mapContains_remove_ne n n' m.grids hn]
          exact (hinv.noneMem n' hl).1
      · show (mapRemove n m.grids).length + m.spheres.length =
          (mapRemove n m.name_to_kind).length
        have hcg : mapContains n m.grids = true := (hinv.gridMem n hk).1
        have h1 := length_mapRemove_of_contains n m.grids hinv.nodupG hcg
        have h2 := length_mapRemove_of_contains n m.name_to_kind
          hinv.nodupK hck
        have hcount := hinv.countEq
        rw [ParticleSystemManager.count] at hcount
        omega
    | Sphere =>
      have he : (m.remove n).2 =
          { m with
            name_to_kind := mapRemove n m.name_to_kind,
            spheres := mapRemove n m.spheres } := by
        simp only [ParticleSystemManager.remove, hk]
      rw [he]
      refine ⟨hinv.nodupG, keysNodup_remove n m.spheres hinv.nodupS,
        keysNodup_remove n m.name_to_kind hinv.nodupK, ?_, ?_, ?_, ?_⟩
      · intro n' hl
        by_cases hn : n' = n
        · subst hn
          rw [show ({ m with
              name_to_kind := mapRemove n' m.name_to_kind,
              spheres := mapRemove n' m.spheres } :
              ParticleSystemManager G S).name_to_kind =
            mapRemove n' m.name_to_kind from rfl,
            mapLookup_remove_self] at hl
          cases hl
        · rw [show ({ m with
              name_to_kind := mapRemove n m.name_to_kind,
              spheres := mapRemove n m.spheres } :
              ParticleSystemManager G S).name_to_kind =
            mapRemove n m.name_to_kind from rfl,
            mapLookup_remove_ne n n' _ hn] at hl
          refine ⟨(hinv.gridMem n' hl).1, ?_⟩
          rw [show ({ m with
              name_to_kind := mapRemove n m.name_to_kind,
              spheres := mapRemove n m.spheres } :
              ParticleSystemManager G S).spheres =
            mapRemove n m.spheres from rfl,
            mapContains_remove_ne n n' m.spheres hn]
          exact (hinv.gridMem n' hl).2
      · intro n' hl
        by_cases hn : n' = n
        · subst hn
          rw [show ({ m with
              name_to_kind := mapRemove n' m.name_to_kind,
              spheres := mapRemove n' m.spheres } :
              ParticleSystemManager G S).name_to_kind =
            mapRemove n' m.name_to_kind from rfl,
            mapLookup_remove_self] at hl
          cases hl
        · rw [show ({ m with
              name_to_kind := mapRemove n m.name_to_kind,
              spheres := mapRemove n m.spheres } :
              ParticleSystemManager G S).name_to_kind =
            mapRemove n m.name_to_kind from rfl,
            mapLookup_remove_ne n n' _ hn] at hl
          refine ⟨?_, (hinv.sphereMem n' hl).2⟩
          rw [show ({ m with
              name_to_kind := mapRemove n m.name_to_kind,
              spheres := mapRemove n m.spheres } :
              ParticleSystemManager G S).spheres =
            mapRemove n m.spheres from rfl,
            mapContains_remove_ne n n' m.spheres hn]
          exact (hinv.sphereMem n' hl).1
      · intro n' hl
        by_cases hn : n' = n
        · subst hn
          refine ⟨(hinv.sphereMem n' hk).2,
            mapContains_remove_self n' m.spheres⟩
        · rw [show ({ m with
              name_to_kind := mapRemove n m.name_to_kind,
              spheres := mapRemove n m.spheres } :
              ParticleSystemManager G S).name_to_kind =
            mapRemove n m.name_to_kind from rfl,
            mapLookup_remove_ne n n' _ hn] at hl
          refine ⟨(hinv.noneMem n' hl).1, ?_⟩
          rw [show ({ m with
              name_to_kind := mapRemove n m.name_to_kind,
              spheres := mapRemove n m.spheres } :
              ParticleSystemManager G S).spheres =
            mapRemove n m.spheres from rfl,
            mapContains_remove_ne n n' m.spheres hn]
          exact (hinv.noneMem n' hl).2
      · show m.grids.length + (mapRemove n m.spheres).length =
          (mapRemove n m.name_to_kind).length
        have hcs : mapContains n m.spheres = true := (hinv.sphereMem n hk).1
        have h1 := length_mapRemove_of_contains n m.spheres hinv.nodupS hcs
        have h2 := length_mapRemove_of_contains n m.name_to_kind
          hinv.nodupK hck
        have hcount := hinv.countEq
        rw [ParticleSystemManager.count] at hcount
        omega

theorem psInv_apply (m : ParticleSystemManager G S) (op : PSOp G S)
    (hinv : PsInv m) (hleg : legalOp m op = true) :
    PsInv (applyPSOp m op) := by
  cases op with
  | addGrid n g =>
    apply psInv_add_grid m n g hinv
    simpa [legalOp] using hleg
  | addSphere n s =>
    apply psInv_add_sphere m n s hinv
    simpa [legalOp] using hleg
  | remove n => exact psInv_remove m n hinv

theorem psInv_foldl :
    ∀ (ops : List (PSOp G S)) (m : ParticleSystemManager G S),
      PsInv m → legalOps m ops = true →
      PsInv (ops.foldl applyPSOp m) := by
  intro ops
  induction ops with
  | nil => intro m h _; exact h
  | cons op t ih =>
    intro m h hleg
    rw [legalOps, Bool.and_eq_true] at hleg
    exact ih (applyPSOp m op) (psInv_apply m op h hleg.1) hleg.2

/-- Counterexample to C9 as stated: re-adding the name "a" as a grid
after registering it as a sphere leaves the stale sphere entry in
place, so count() is 2 while only one distinct name is registered, and
"a" is present in both maps. -/
theorem c9_counterexample :
    ((ParticleSystemManager.add_grid
      (ParticleSystemManager.add_sphere
        (ParticleSystemManager.new (G := Unit) (S := Unit)) "a" ())
      "a" ()).count = 2) ∧
    ((ParticleSystemManager.add_grid
      (ParticleSystemManager.add_sphere
        (ParticleSystemManager.new (G := Unit) (S := Unit)) "a" ())
      "a" ()).name_to_kind.length = 1) ∧
    ¬ ((ParticleSystemManager.add_grid
      (ParticleSystemManager.add_sphere
        (ParticleSystemManager.new (G := Unit) (S := Unit)) "a" ())
      "a" ()).count =
      (ParticleSystemManager.add_grid
        (ParticleSystemManager.add_sphere
          (ParticleSystemManager.new (G := Unit) (S := Unit)) "a" ())
        "a" ()).name_to_kind.length) ∧
    (mapLookup "a" (ParticleSystemManager.add_grid
      (ParticleSystemManager.add_sphere
        (ParticleSystemManager.new (G := Unit) (S := Unit)) "a" ())
      "a" ()).name_to_kind = some ParticleSystemKind.Grid) ∧
    (mapContains "a" (ParticleSystemManager.add_grid
      (ParticleSystemManager.add_sphere
        (ParticleSystemManager.new (G := Unit) (S := Unit)) "a" ())
      "a" ()).grids = true) ∧
    (mapContains "a" (ParticleSystemManager.add_grid
      (ParticleSystemManager.add_sphere
        (ParticleSystemManager.new (G := Unit) (S := Unit)) "a" ())
      "a" ()).spheres = true) := by
  refine ⟨rfl, rfl, by decide, ?_, rfl, rfl⟩
  rfl

/-- C9 amended: for every sequence of add_grid/add_sphere/remove calls
in which no add re-registers a name currently held by the other kind,
count() equals the number of distinct registered names, and each
registered name is present in exactly the map recorded for it in
name_to_kind (and absent names are in neither map).  Re-adding an
existing name under the other kind violates the invariant, as the
counterexample shows. -/
theorem c9_manager_consistency {G S : Type u} (ops : List (PSOp G S))
    (h : legalOps ParticleSystemManager.new ops = true) :
    (runPSOps ops).count = (runPSOps ops).name_to_kind.length ∧
    keysNodup (runPSOps ops).name_to_kind ∧
    (∀ n, mapLookup n (runPSOps ops).name_to_kind =
        some ParticleSystemKind.Grid →
      mapContains n (runPSOps ops).grids = true ∧
      mapContains n (runPSOps ops).spheres = false) ∧
    (∀ n, mapLookup n (runPSOps ops).name_to_kind =
        some ParticleSystemKind.Sphere →
      mapContains n (runPSOps ops).spheres = true ∧
      mapContains n (runPSOps ops).grids = false) ∧
    (∀ n, mapLookup n (runPSOps ops).name_to_kind = none →
      mapContains n (runPSOps ops).grids = false ∧
      mapContains n (runPSOps ops).spheres = false) := by
  have hinv : PsInv (runPSOps ops) := psInv_foldl ops _ psInv_new h
  exact ⟨hinv.countEq, hinv.nodupK, hinv.gridMem, hinv.sphereMem,
    hinv.noneMem⟩

/-- Witness for the amended C9 on the legal sequence add grid "a",
add sphere "b", remove "a". -/
theorem c9_manager_consistency_witness :
    (runPSOps [PSOp.addGrid "a" (), PSOp.addSphere "b" (),
      PSOp.remove "a"] : ParticleSystemManager Unit Unit).count =
      (runPSOps [PSOp.addGrid "a" (), PSOp.addSphere "b" (),
        PSOp.remove "a"] :
        ParticleSystemManager Unit Unit).name_to_kind.length ∧
    (mapContains "b" (runPSOps [PSOp.addGrid "a" (), PSOp.addSphere "b" (),
      PSOp.remove "a"] : ParticleSystemManager Unit Unit).spheres = true ∧
     mapContains "b" (runPSOps [PSOp.addGrid "a" (), PSOp.addSphere "b" (),
      PSOp.remove "a"] : ParticleSystemManager Unit Unit).grids = false) := by
  have h := c9_manager_consistency
    (G := Unit) (S := Unit)
    [PSOp.addGrid "a" (), PSOp.addSphere "b" (), PSOp.remove "a"]
    (by decide)
  refine ⟨h.1, h.2.2.2.1 "b" ?_⟩
  decide

/-- C6.  Material creation error handling: create_material errors when
the derived key "custom/{name}" already exists or when the texture path
is not registered, in both cases leaving the material registry
unchanged (every pre-existing material untouched); on success it
returns the key and inserts the new material there with provenance
Custom, leaving every other key untouched. -/
theorem c6_create_material {F : Type u}
    (materials : List (String × MaterialDesc F)) (textures : List String)
    (name texture_path : String) (color : F × F × F × F) :
    (mapContains ("custom/" ++ name) materials = true →
      (∃ e, (create_material materials textures name texture_path
        color).1 = Except.error e) ∧
      (create_material materials textures name texture_path color).2 =
        materials) ∧
    (mapContains ("custom/" ++ name) materials = false →
      textures.contains texture_path = false →
      (∃ e, (create_material materials textures name texture_path
        color).1 = Except.error e) ∧
      (create_material materials textures name texture_path color).2 =
        materials) ∧
    (mapContains ("custom/" ++ name) materials = false →
      textures.contains texture_path = true →
      (create_material materials textures name texture_path color).1 =
        Except.ok ("custom/" ++ name) ∧
      mapLookup ("custom/" ++ name)
        (create_material materials textures name texture_path color).2 =
        some ⟨name, texture_path, color, MaterialSource.Custom⟩ ∧
      (∀ k, k ≠ "custom/" ++ name →
        mapLookup k (create_material materials textures name texture_path
          color).2 = mapLookup k materials)) := by
  refine ⟨?_, ?_, ?_⟩
  · intro hc
    rw [create_material]
    simp only [hc, if_true]
    exact ⟨⟨_, rfl⟩, trivial⟩
  · intro hc ht
    rw [create_material]
    simp only [hc, ht, Bool.false_eq_true, if_false]
    exact ⟨⟨_, rfl⟩, trivial⟩
  · intro hc ht
    rw [create_material]
    simp only [hc, ht, Bool.false_eq_true, if_false, if_true]
    refine ⟨trivial, mapLookup_insert_self _ _ _, ?_⟩
    intro k hk
    exact mapLookup_insert_ne _ k _ materials hk

/-- Witness for C6 over Nat colors: a duplicate create fails and keeps
the first material, a create with an unregistered texture fails, and a
fresh create succeeds with provenance Custom. -/
theorem c6_create_material_witness :
    ((∃ e, (create_material
        [("custom/foo",
          (⟨"foo", "t.png", (0, 0, 0, 0), MaterialSource.Custom⟩ :
            MaterialDesc Nat))]
        ["t.png"] "foo" "t.png" (1, 1, 1, 1)).1 = Except.error e) ∧
      (create_material
        [("custom/foo",
          (⟨"foo", "t.png", (0, 0, 0, 0), MaterialSource.Custom⟩ :
            MaterialDesc Nat))]
        ["t.png"] "foo" "t.png" (1, 1, 1, 1)).2 =
        [("custom/foo",
          (⟨"foo", "t.png", (0, 0, 0, 0), MaterialSource.Custom⟩ :
            MaterialDesc Nat))]) ∧
    (∃ e, (create_material
        ([] : List (String × MaterialDesc Nat)) ["t.png"] "bar"
        "missing.png" (1, 1, 1, 1)).1 = Except.error e) ∧
    ((create_material ([] : List (String × MaterialDesc Nat)) ["t.png"]
        "bar" "t.png" (1, 1, 1, 1)).1 = Except.ok "custom/bar" ∧
      mapLookup "custom/bar"
        (create_material ([] : List (String × MaterialDesc Nat))
          ["t.png"] "bar" "t.png" (1, 1, 1, 1)).2 =
        some ⟨"bar", "t.png", (1, 1, 1, 1), MaterialSource.Custom⟩) := by
  refine ⟨?_, ?_, ?_⟩
  · exact (c6_create_material
      [("custom/foo",
        (⟨"foo", "t.png", (0, 0, 0, 0), MaterialSource.Custom⟩ :
          MaterialDesc Nat))]
      ["t.png"] "foo" "t.png" (1, 1, 1, 1)).1 (by decide)
  · exact ((c6_create_material ([] : List (String × MaterialDesc Nat))
      ["t.png"] "bar" "missing.png" (1, 1, 1, 1)).2.1 (by decide)
      (by decide)).1
  · have h := (c6_create_material ([] : List (String × MaterialDesc Nat))
      ["t.png"] "bar" "t.png" (1, 1, 1, 1)).2.2 (by decide) (by decide)
    exact ⟨h.1, h.2.1⟩

theorem exportLights_foldl (m : LightManager F) :
    ∀ (l : List Nat) (acc : List (LightParams F)),
      l.foldl
        (fun acc i =>
          match m.get_light i with
          | some lt =>
            acc ++ [⟨lightPos3 lt, lt.color, m.model_path, m.material_key⟩]
          | none => acc)
        acc =
      acc ++ (l.filter (fun i => m.is_active i)).map
        (fun i => ⟨lightPos3 (m.lights i), (m.lights i).color,
          m.model_path, m.material_key⟩) := by
  intro l
  induction l with
  | nil => intro acc; simp
  | cons i t ih =>
    intro acc
    by_cases ha : m.is_active i
    · have hg : m.get_light i = some (m.lights i) := by
        rw [LightManager.get_light, if_pos ha]
      simp only [List.foldl_cons, hg]
      rw [ih, List.filter_cons_of_pos (by simpa using ha)]
      simp
    · have hg : m.get_light i = none := by
        rw [LightManager.get_light, if_neg ha]
      simp only [List.foldl_cons, hg]
      rw [ih, List.filter_cons_of_neg (by simpa using ha)]

theorem exportLights_eq (m : LightManager F) :
    exportLights m = m.activeIdx.map
      (fun i => ⟨lightPos3 (m.lights i), (m.lights i).color,
        m.model_path, m.material_key⟩) := by
  rw [exportLights, exportLights_foldl m (List.range MAX_LIGHTS) []]
  rfl

theorem activeIdx_length_le (m : LightManager F) :
    m.activeIdx.length ≤ MAX_LIGHTS :=
  le_trans (List.length_filter_le _ _) (le_of_eq (List.length_range _))

theorem mask_or_pow (k : Nat) :
    (2 ^ k - 1) ||| (1 <<< k) = 2 ^ (k + 1) - 1 := by
  apply Nat.eq_of_testBit_eq
  intro i
  rw [Nat.testBit_lor, Nat.one_shiftLeft, Nat.testBit_two_pow_sub_one,
    Nat.testBit_two_pow_sub_one, Nat.testBit_two_pow]
  by_cases h1 : i < k
  · have h2 : i < k + 1 := by omega
    have h3 : ¬ k = i := by omega
    simp [h1, h2, h3]
  · by_cases h3 : k = i
    · subst h3
      simp
    · have h2 : ¬ i < k + 1 := by omega
      simp [h1, h2, h3]

theorem add_light_prefix [One F] (m : LightManager F) (k : Nat)
    (hm : m.active_mask = 2 ^ k - 1) (hk : k < MAX_LIGHTS)
    (pos : F × F × F) (color : F × F × F × F) :
    m.add_light pos color =
      (some k,
        { m with
          lights := Function.update m.lights k
            ⟨(pos.1, pos.2.1, pos.2.2, 1), color⟩,
          active_mask := m.active_mask ||| (1 <<< k),
          dirty := true }) := by
  apply addLightLoop_found m pos color MAX_LIGHTS 0 k (Nat.zero_le k)
    (by omega)
  · exact (land_one_shiftLeft_eq_zero _ k).mpr
      (by rw [hm, Nat.testBit_two_pow_sub_one]; simp)
  · intro j _ hj hz
    rw [land_one_shiftLeft_eq_zero, hm,
      Nat.testBit_two_pow_sub_one] at hz
    simp at hz
    omega

theorem foldl_add_light [Zero F] [One F] (dflt : LightParams F) :
    ∀ (L : List (LightParams F)) (m : LightManager F) (k : Nat),
      m.active_mask = 2 ^ k - 1 → k + L.length ≤ MAX_LIGHTS →
      ((L.foldl (fun m ld => (m.add_light ld.position ld.color).2)
          m).active_mask = 2 ^ (k + L.length) - 1 ∧
        (∀ i, i < k →
          (L.foldl (fun m ld => (m.add_light ld.position ld.color).2)
            m).lights i = m.lights i) ∧
        (∀ j, j < L.length →
          (L.foldl (fun m ld => (m.add_light ld.position ld.color).2)
            m).lights (k + j) = homogLight (L.getD j dflt)) ∧
        (L.foldl (fun m ld => (m.add_light ld.position ld.color).2)
          m).model_path = m.model_path ∧
        (L.foldl (fun m ld => (m.add_light ld.position ld.color).2)
          m).material_key = m.material_key) := by
  intro L
  induction L with
  | nil =>
    intro m k hm _
    exact ⟨by simpa using hm, fun i _ => rfl,
      fun j hj => absurd hj (by simp), rfl, rfl⟩
  | cons ld t ih =>
    intro m k hm hlen
    have hlen' : k + (t.length + 1) ≤ MAX_LIGHTS := by
      simpa [List.length_cons] using hlen
    have hk : k < MAX_LIGHTS := by omega
    have hstep := add_light_prefix m k hm hk ld.position ld.color
    have h2 : (m.add_light ld.position ld.color).2 =
        { m with
          lights := Function.update m.lights k (homogLight ld),
          active_mask := m.active_mask ||| (1 <<< k),
          dirty := true } := by
      rw [hstep]
      rfl
    have hm1 : ({ m with
        lights := Function.update m.lights k (homogLight ld),
        active_mask := m.active_mask ||| (1 <<< k),
        dirty := true } : LightManager F).active_mask =
        2 ^ (k + 1) - 1 := by
      show m.active_mask ||| (1 <<< k) = _
      rw [hm, mask_or_pow]
    obtain ⟨ih1, ih2, ih3, ih4, ih5⟩ := ih
      { m with
        lights := Function.update m.lights k (homogLight ld),
        active_mask := m.active_mask ||| (1 <<< k),
        dirty := true }
      (k + 1) hm1 (by omega)
    rw [List.foldl_cons, h2]
    refine ⟨?_, ?_, ?_, ?_, ?_⟩
    · rw [ih1]
      have he : k + 1 + t.length = k + (ld :: t).length := by
        rw [List.length_cons]
        omega
      rw [he]
    · intro i hi
      rw [ih2 i (by omega)]
      exact Function.update_noteq (by omega) _ _
    · intro j hj
      cases j with
      | zero =>
        have h0 := ih2 k (by omega)
        have hupd : Function.update m.lights k (homogLight ld) k =
            homogLight ld := Function.update_same _ _ _
        simpa using h0.trans hupd
      | succ j' =>
        simp only [List.length_cons] at hj
        have h3 := ih3 j' (by omega)
        rw [List.getD_cons_succ, ← h3]
        congr 1
        omega
    · rw [ih4]
    · rw [ih5]

theorem activeIdx_prefix_mask (m : LightManager F) (k : Nat)
    (hm : m.active_mask = 2 ^ k - 1) (hk : k ≤ MAX_LIGHTS) :
    m.activeIdx = List.range k := by
  rw [activeIdx_eq_testBit_filter, hm]
  obtain ⟨d, hd⟩ : ∃ d, MAX_LIGHTS = k + d := ⟨MAX_LIGHTS - k, by omega⟩
  rw [hd, List.range_add, List.filter_append]
  have h1 : (List.range k).filter (fun i => (2 ^ k - 1).testBit i) =
      List.range k := by
    apply List.filter_eq_self.mpr
    intro a ha
    rw [List.mem_range] at ha
    rw [Nat.testBit_two_pow_sub_one]
    simpa using ha
  have h2 : ((List.range d).map (k + ·)).filter
      (fun i => (2 ^ k - 1).testBit i) = [] := by
    apply List.filter_eq_nil_iff.mpr
    intro a ha
    simp only [List.mem_map, List.mem_range] at ha
    obtain ⟨b, _, rfl⟩ := ha
    rw [Nat.testBit_two_pow_sub_one]
    simp
  rw [h1, h2, List.append_nil]

theorem map_range_getD {β γ : Type u} (L : List β) (dflt : β)
    (g : β → γ) :
    (List.range L.length).map (fun j => g (L.getD j dflt)) = L.map g := by
  apply List.ext_get (by simp)
  intro n h1 h2
  rw [List.get_map, List.get_map, List.get_range]
  rw [List.getD_eq_get L dflt (by simpa using h2)]

theorem mapLookup_foldl_insert {β : Type u} :
    ∀ (L acc : List (String × β)) (n : String), keysNodup L →
      mapLookup n (L.foldl (fun acc p => mapInsert p.1 p.2 acc) acc) =
        (if (mapLookup n L).isSome then mapLookup n L
         else mapLookup n acc) := by
  intro L
  induction L with
  | nil =>
    intro acc n _
    simp [mapLookup]
  | cons p t ih =>
    intro acc n hn
    rw [keysNodup, List.map_cons, List.nodup_cons] at hn
    have hto : mapContains p.1 t = false := by
      by_contra hc
      rw [Bool.not_eq_false, mapContains, List.any_eq_true] at hc
      obtain ⟨x, hx, hxk⟩ := hc
      simp only [decide_eq_true_eq] at hxk
      exact hn.1 (List.mem_map.mpr ⟨x, hx, hxk⟩)
    rw [List.foldl_cons, ih _ n hn.2]
    by_cases hnp : n = p.1
    · rw [← hnp] at hto
      have hlt : mapLookup n t = none := by
        have hiso := mapContains_eq_isSome_lookup n t
        rw [hto] at hiso
        cases hl : mapLookup n t with
        | none => rfl
        | some v => rw [hl] at hiso; cases hiso
      rw [hlt, mapLookup_cons_of_eq p t n hnp.symm, hnp,
        mapLookup_insert_self]
      simp
    · rw [mapLookup_insert_ne p.1 n p.2 acc hnp,
        mapLookup_cons_of_ne p t n (fun he => hnp he.symm)]

theorem setInsert_contains_self (l : List String) (x : String) :
    (setInsert l x).contains x = true := by
  rw [setInsert]
  by_cases h : l.contains x
  · rw [if_pos h]
    exact h
  · rw [if_neg h]
    simp

theorem setInsert_contains_mono (l : List String) (x p : String)
    (h : l.contains p = true) : (setInsert l x).contains p = true := by
  rw [setInsert]
  by_cases hc : l.contains x
  · rw [if_pos hc]
    exact h
  · rw [if_neg hc]
    exact List.elem_iff.mpr
      (List.mem_append.mpr (Or.inl (List.elem_iff.mp h)))

theorem pendingFold_mono :
    ∀ (req models acc : List String) (p : String),
      acc.contains p = true →
      (req.foldl
        (fun acc q => if models.contains q then acc else setInsert acc q)
        acc).contains p = true := by
  intro req
  induction req with
  | nil => intro _ acc p h; exact h
  | cons q t ih =>
    intro models acc p h
    rw [List.foldl_cons]
    by_cases hm : models.contains q
    · rw [if_pos hm]
      exact ih models acc p h
    · rw [if_neg hm]
      exact ih models _ p (setInsert_contains_mono acc q p h)

theorem pendingFold_mem :
    ∀ (req models pending : List String) (p : String),
      p ∈ req → models.contains p = false →
      (req.foldl
        (fun acc q => if models.contains q then acc else setInsert acc q)
        pending).contains p = true := by
  intro req
  induction req with
  | nil => intro _ _ p hp; cases hp
  | cons q t ih =>
    intro models pending p hp hm
    rw [List.foldl_cons]
    rcases List.mem_cons.mp hp with he | ht
    · subst he
      rw [if_neg (by rw [hm]; simp)]
      exact pendingFold_mono t models _ p (setInsert_contains_self pending p)
    · by_cases hmq : models.contains q
      · rw [if_pos hmq]
        exact ih models pending p ht hm
      · rw [if_neg hmq]
        exact ih models _ p ht hm

theorem addLightLoop_preserves_refs [One F] (m : LightManager F)
    (pos : F × F × F) (color : F × F × F × F) :
    ∀ (fuel start : Nat),
      ((addLightLoop m pos color start fuel).2).model_path =
        m.model_path ∧
      ((addLightLoop m pos color start fuel).2).material_key =
        m.material_key := by
  intro fuel
  induction fuel with
  | zero => intro start; exact ⟨rfl, rfl⟩
  | succ n ih =>
    intro start
    rw [addLightLoop]
    by_cases hb : Nat.land m.active_mask (1 <<< start) = 0
    · rw [if_pos hb]
      exact ⟨rfl, rfl⟩
    · rw [if_neg hb]
      exact ih (start + 1)

theorem foldl_add_light_preserves_refs [One F] :
    ∀ (L : List (LightParams F)) (b : LightManager F),
      ((L.foldl (fun m ld => (m.add_light ld.position ld.color).2)
          b).model_path = b.model_path) ∧
      ((L.foldl (fun m ld => (m.add_light ld.position ld.color).2)
          b).material_key = b.material_key) := by
  intro L
  induction L with
  | nil => intro b; exact ⟨rfl, rfl⟩
  | cons ld t ih =>
    intro b
    rw [List.foldl_cons]
    obtain ⟨h1, h2⟩ := ih ((b.add_light ld.position ld.color).2)
    obtain ⟨h3, h4⟩ := addLightLoop_preserves_refs b ld.position ld.color
      MAX_LIGHTS 0
    exact ⟨h1.trans h3, h2.trans h4⟩

theorem loadLights_refs [Zero F] [One F] (first : LightParams F)
    (rest : List (LightParams F)) :
    (loadLights (first :: rest)).model_path = first.model ∧
    (loadLights (first :: rest)).material_key = first.material_key := by
  obtain ⟨h1, h2⟩ := foldl_add_light_preserves_refs (F := F)
    (first :: rest)
    ({ LightManager.new with
      model_path := first.model,
      material_key := first.material_key } : LightManager F)
  exact ⟨h1, h2⟩

theorem activeLightsData_fold_base [Zero F] [One F]
    (L : List (LightParams F)) (b : LightManager F)
    (hb : b.active_mask = 0) (hlen : L.length ≤ MAX_LIGHTS) :
    activeLightsData
      { (L.foldl (fun m ld => (m.add_light ld.position ld.color).2) b)
        with dirty := false } =
      L.map (fun ld => (ld.position, ld.color)) := by
  have hb' : b.active_mask = 2 ^ 0 - 1 := by rw [hb]; decide
  obtain ⟨h1, _, h3, _, _⟩ := foldl_add_light
    (⟨(0, 0, 0), (0, 0, 0, 0), "", ""⟩ : LightParams F) L b 0 hb'
    (by simpa using hlen)
  have h1' : ({ (L.foldl
      (fun m ld => (m.add_light ld.position ld.color).2) b) with
      dirty := false } : LightManager F).active_mask =
      2 ^ L.length - 1 := by
    show (L.foldl (fun m ld =>
      (m.add_light ld.position ld.color).2) b).active_mask = _
    rw [h1]
    simp
  rw [activeLightsData, activeIdx_prefix_mask _ L.length h1' hlen]
  have hcong : ∀ j ∈ List.range L.length,
      (lightPos3 (({ (L.foldl
          (fun m ld => (m.add_light ld.position ld.color).2) b) with
          dirty := false } : LightManager F).lights j),
        (({ (L.foldl
          (fun m ld => (m.add_light ld.position ld.color).2) b) with
          dirty := false } : LightManager F).lights j).color) =
      ((L.getD j (⟨(0, 0, 0), (0, 0, 0, 0), "", ""⟩ :
          LightParams F)).position,
        (L.getD j (⟨(0, 0, 0), (0, 0, 0, 0), "", ""⟩ :
          LightParams F)).color) := by
    intro j hj
    rw [List.mem_range] at hj
    have hlj : ({ (L.foldl
        (fun m ld => (m.add_light ld.position ld.color).2) b) with
        dirty := false } : LightManager F).lights j =
        homogLight (L.getD j
          (⟨(0, 0, 0), (0, 0, 0, 0), "", ""⟩ : LightParams F)) := by
      have := h3 j hj
      simpa using this
    rw [hlj]
    rfl
  rw [List.map_congr_left hcong]
  exact map_range_getD L _ (fun ld => (ld.position, ld.color))

theorem activeLightsData_loadLights [Zero F] [One F]
    (L : List (LightParams F)) (hlen : L.length ≤ MAX_LIGHTS) :
    activeLightsData (loadLights L) =
      L.map (fun ld => (ld.position, ld.color)) := by
  cases L with
  | nil =>
    exact activeLightsData_fold_base [] LightManager.new rfl (by simp)
  | cons first rest =>
    exact activeLightsData_fold_base (first :: rest)
      { LightManager.new with
        model_path := first.model, material_key := first.material_key }
      rfl hlen

theorem exportLights_length_le (m : LightManager F) :
    (exportLights m).length ≤ MAX_LIGHTS := by
  rw [exportLights_eq, List.length_map]
  exact activeIdx_length_le m

/-- C3.  World round-trip: loading an exported world reproduces the
camera pose (position, yaw, pitch, fovy, znear, zfar), the background
color, the active lights with their positions, colors and (when any
light exists) the shared model path and material key, and the particle
systems keyed by name with their model path, material key and
generator; the model registry is untouched and every referenced model
path not in the registry is enqueued as a pending load. -/
theorem c3_world_round_trip {F : Type u} [Zero F] [One F]
    (s : EngineState F) (hn : keysNodup s.systems) :
    (s.load_world s.export_world).camera = s.camera ∧
    (s.load_world s.export_world).projection = s.projection ∧
    (s.load_world s.export_world).clear_color = s.clear_color ∧
    activeLightsData (s.load_world s.export_world).light_manager =
      activeLightsData s.light_manager ∧
    ((s.export_world).lights ≠ [] →
      (s.load_world s.export_world).light_manager.model_path =
        s.light_manager.model_path ∧
      (s.load_world s.export_world).light_manager.material_key =
        s.light_manager.material_key) ∧
    (∀ n, mapLookup n (s.load_world s.export_world).systems =
      mapLookup n s.systems) ∧
    (s.load_world s.export_world).models = s.models ∧
    (∀ p, p ∈ requiredModels s.export_world →
      s.models.contains p = false →
      (s.load_world
        s.export_world).pending_model_loads.contains p = true) := by
  refine ⟨rfl, rfl, rfl, ?_, ?_, ?_, rfl, ?_⟩
  · show activeLightsData (loadLights (exportLights s.light_manager)) = _
    rw [activeLightsData_loadLights _ (exportLights_length_le _)]
    rw [exportLights_eq, List.map_map]
    rfl
  · intro hne
    cases hL : (s.export_world).lights with
    | nil => exact absurd hL hne
    | cons first rest =>
      have hfm : first.model = s.light_manager.model_path ∧
          first.material_key = s.light_manager.material_key := by
        rw [show (s.export_world).lights =
          exportLights s.light_manager from rfl, exportLights_eq] at hL
        cases hAI : s.light_manager.activeIdx with
        | nil => rw [hAI] at hL; cases hL
        | cons i t =>
          rw [hAI, List.map_cons] at hL
          have := (List.cons.injEq _ _ _ _).mp hL
          rw [← this.1]
          exact ⟨rfl, rfl⟩
      have hload : (s.load_world s.export_world).light_manager =
          loadLights (first :: rest) := by
        show loadLights (s.export_world).lights = _
        rw [hL]
      rw [hload]
      obtain ⟨h1, h2⟩ := loadLights_refs first rest
      exact ⟨h1.trans hfm.1, h2.trans hfm.2⟩
  · intro n
    have he : (s.load_world s.export_world).systems =
        s.systems.foldl (fun acc p => mapInsert p.1 p.2 acc) [] := by
      show loadSystems ((s.export_world).particle_systems) = _
      rw [loadSystems]
      rw [show (s.export_world).particle_systems =
        s.systems.map (fun p => (⟨p.1, p.2.model_path, p.2.material_key,
          p.2.generator⟩ : ParticleSystemData F)) from rfl]
      rw [List.foldl_map]
    rw [he, mapLookup_foldl_insert s.systems [] n hn]
    cases hl : mapLookup n s.systems with
    | none => simp [hl, mapLookup]
    | some v => simp [hl]
  · intro p hp hm
    exact pendingFold_mem (requiredModels s.export_world) s.models
      s.pending_model_loads p hp hm

/-- Witness for C3 on a concrete state: camera, lights and systems all
survive the round trip, and the uncached referenced model "cube.obj" is
enqueued. -/
theorem c3_world_round_trip_witness :
    (exampleEngineState.load_world
      exampleEngineState.export_world).camera =
      exampleEngineState.camera ∧
    activeLightsData (exampleEngineState.load_world
      exampleEngineState.export_world).light_manager =
      activeLightsData exampleEngineState.light_manager ∧
    mapLookup "main" (exampleEngineState.load_world
      exampleEngineState.export_world).systems =
      mapLookup "main" exampleEngineState.systems ∧
    (exampleEngineState.load_world
      exampleEngineState.export_world).pending_model_loads.contains
      "cube.obj" = true := by
  have h := c3_world_round_trip exampleEngineState
    (by show (exampleEngineState.systems.map Prod.fst).Nodup; decide)
  exact ⟨h.1, h.2.2.2.1, h.2.2.2.2.2.1 "main",
    h.2.2.2.2.2.2.2 "cube.obj" (by decide) (by decide)⟩

end G2
